import Mathlib

/-!
# Appwrite schema provisioning script (`appwrite-setup/setup.js`)

A shallow embedding of the provisioning script.  The script is a sequence of
awaited remote calls, console output and fixed delays with `try`/`catch`
control flow.  It is modelled as a state-and-exception computation over a
`World`: the state of the remote control plane together with the trace of
observable events (remote calls with their outcome, delays, console lines).

The remote side (SDK plus server) is a parameter: an arbitrary transition
function `Env.respond`, so that a statement quantified over `Env` and the
initial remote state speaks about every possible run of the script.

Conventions of the embedding:

* a successful SDK call resolves with the created model object, so its value
  is an object (truthy); a failed call rejects with an error object whose
  `code`, `type` and `message` may hold any value;
* `console.log` and `console.error` only append a line to the trace;
* `process.exit(1)` is the value 1 of `main`, and a normal return the value 0;
  nothing follows either in the source, and `main` never rejects, so the
  handler of `main().catch(console.error)` on line 474 is never entered.
-/

namespace AppwriteSetup

/-! ## JavaScript values and errors -/

/-- JavaScript values as far as the script inspects them.  An object is
identified by its serialised content; numbers are integers (the script only
compares against the integer literals 409 and 403). -/
inductive JsVal where
  | undefined
  | null
  | bool (b : Bool)
  | num (n : Int)
  | str (s : String)
  | obj (json : String)
  deriving DecidableEq, Repr

/-- Truthiness as tested by `if (attrCreated)`. -/
def JsVal.truthy : JsVal → Bool
  | .undefined => false
  | .null => false
  | .bool b => b
  | .num n => n != 0
  | .str s => s != ""
  | .obj _ => true

/-- An error object thrown by a remote call, with the three properties the
script reads (`error.code`, `error.type`, `error.message`); a property that is
missing on the object reads as `undefined`. -/
structure JsError where
  code : JsVal
  type : JsVal
  message : JsVal
  deriving DecidableEq, Repr

/-! ## Remote calls -/

/-- Roles built by `sdk.Role`. -/
inductive Role where
  | any
  | label (name : String)
  deriving DecidableEq, Repr

/-- Permissions built by `sdk.Permission`. -/
inductive Permission where
  | read (r : Role)
  | create (r : Role)
  | update (r : Role)
  | delete (r : Role)
  deriving DecidableEq, Repr

/-- The remote create calls of the SDK used by the script, with their
arguments.  An argument the script leaves out is `undefined` (or `none`). -/
inductive Call where
  | createCollection (databaseId collectionId name : String)
      (permissions : List Permission) (documentSecurity : Bool) (enabled : JsVal)
  | createStringAttribute (databaseId collectionId key : String)
      (size : Option Nat) (required : Bool) (dflt : JsVal)
  | createIntegerAttribute (databaseId collectionId key : String)
      (required : Bool) (min max dflt : JsVal)
  | createDatetimeAttribute (databaseId collectionId key : String)
      (required : Bool) (dflt : JsVal)
  | createBooleanAttribute (databaseId collectionId key : String)
      (required : Bool)
  | createIndex (databaseId collectionId key type : String)
      (attributes : List String) (orders : Option (List String))
  | createBucket (bucketId name : String) (permissions : List Permission)
      (fileSecurity enabled : Bool) (maximumFileSize : Nat)
      (allowedFileExtensions : List String) (compression : String)
      (encryption antivirus : Bool)
  deriving DecidableEq, Repr

/-- Outcome of one remote call: the promise resolves with the created model
object (the SDK returns the parsed response body, an object), or rejects with
an error object. -/
inductive Response where
  | ok (json : String)
  | error (e : JsError)
  deriving DecidableEq, Repr

/-- Arguments printed by `console.error` after the label. -/
inductive Printed where
  | val (v : JsVal)
  | err (e : JsError)
  deriving DecidableEq, Repr

/-- Observable events of a run, in order. -/
inductive Event where
  | call (c : Call) (r : Response)
  | wait (ms : Nat)
  | log (line : String)
  | error (line : String) (arg : Printed)
  deriving DecidableEq, Repr

/-- The environment of a run: the two configuration strings that are printed,
and the behaviour of the remote side as a transition function on its state. -/
structure Env (σ : Type) where
  APPWRITE_ENDPOINT : String
  APPWRITE_PROJECT_ID : String
  respond : σ → Call → Response × σ

/-- Remote state and the events observed so far. -/
structure World (σ : Type) where
  remote : σ
  trace : List Event

/-- An awaited computation: it ends with a value or a thrown error, and in
both cases leaves a world behind. -/
def Prog (σ α : Type) : Type := World σ → Except JsError α × World σ

section Prog

variable {σ α β : Type}

/-- Return a value. -/
def Prog.pure (a : α) : Prog σ α := fun w => (.ok a, w)

/-- Sequencing of awaited computations: an error skips the continuation. -/
def Prog.bind (p : Prog σ α) (f : α → Prog σ β) : Prog σ β := fun w =>
  match p w with
  | (.ok a, w1) => f a w1
  | (.error e, w1) => (.error e, w1)

instance : Monad (Prog σ) where
  pure := Prog.pure
  bind := Prog.bind

/-- The statement `throw error`. -/
def Prog.throw (e : JsError) : Prog σ α := fun w => (.error e, w)

/-- The statement `try { body } catch (error) { handler }`. -/
def Prog.tryCatch (body : Prog σ α) (handler : JsError → Prog σ α) : Prog σ α := fun w =>
  match body w with
  | (.ok a, w1) => (.ok a, w1)
  | (.error e, w1) => handler e w1

/-- Append one event to the trace. -/
def emit (ev : Event) : Prog σ Unit := fun w => (.ok (), { w with trace := w.trace ++ [ev] })

/-- The call `console.log(line)`. -/
def consoleLog (line : String) : Prog σ Unit := emit (.log line)

/-- The call `console.error(line, arg)`. -/
def consoleError (line : String) (arg : Printed) : Prog σ Unit := emit (.error line arg)

/-- The statement `await new Promise(resolve => setTimeout(resolve, ms))`. -/
def sleep (ms : Nat) : Prog σ Unit := emit (.wait ms)

/-- One awaited SDK call: the remote answers and moves to its next state; the
call and its outcome are recorded. -/
def remoteCall (E : Env σ) (c : Call) : Prog σ JsVal := fun w =>
  match E.respond w.remote c with
  | (.ok json, s) => (.ok (.obj json), { remote := s, trace := w.trace ++ [.call c (.ok json)] })
  | (.error e, s) => (.error e, { remote := s, trace := w.trace ++ [.call c (.error e)] })

/-- The loop `for (const x of xs) { await body(x) }`. -/
def forOf {γ : Type} : List γ → (γ → Prog σ Unit) → Prog σ Unit
  | [], _ => Prog.pure ()
  | x :: xs, body => Prog.bind (body x) (fun _ => forOf xs body)

/-- Helper to handle idempotent operations (`safeExecute`, lines 55-68). -/
def safeExecute (operation : Prog σ JsVal) (errorMessage successMessage : String) :
    Prog σ JsVal :=
  Prog.tryCatch
    (do
      let result ← operation
      consoleLog ("✅ " ++ successMessage)
      pure result)
    (fun error =>
      if error.code = JsVal.num 409 then do
        consoleLog ("ℹ️  " ++ successMessage ++ " (already exists)")
        pure JsVal.null
      else do
        consoleError ("❌ " ++ errorMessage ++ ":") (.val error.message)
        Prog.throw error)


/-! ## Configuration constants (lines 25-40) -/

/-- The database every call addresses. -/
def DATABASE_ID : String := "quran_gate_db"

/-- Collection id `COLLECTIONS.USERS`. -/
def COLLECTIONS.USERS : String := "users"

/-- Collection id `COLLECTIONS.STUDENTS`. -/
def COLLECTIONS.STUDENTS : String := "students"

/-- Collection id `COLLECTIONS.CLASS_SESSIONS`. -/
def COLLECTIONS.CLASS_SESSIONS : String := "class_sessions"

/-- Collection id `COLLECTIONS.LEARNING_MATERIALS`. -/
def COLLECTIONS.LEARNING_MATERIALS : String := "learning_materials"

/-! ## Learning materials collection (lines 73-177) -/

/-- An entry of the `attributes` array literal; a property the literal leaves
out reads as `undefined` (`none` for `size`). -/
structure AttrSpec where
  name : String
  type : String
  size : Option Nat
  required : Bool
  dflt : JsVal
  deriving DecidableEq, Repr

/-- An entry of the `indexes` array literal. -/
structure IndexSpec where
  key : String
  type : String
  attributes : List String
  orders : Option (List String)
  deriving DecidableEq, Repr

/-- The `attributes` array of `createLearningMaterialsCollection` (lines 97-114). -/
def learningMaterialsAttributes : List AttrSpec :=
  [ { name := "title", type := "string", size := some 255, required := true, dflt := .undefined },
    { name := "description", type := "string", size := some 2000, required := false, dflt := .undefined },
    { name := "category", type := "string", size := some 100, required := false, dflt := .undefined },
    { name := "type", type := "string", size := some 50, required := true, dflt := .undefined },
    { name := "fileUrl", type := "string", size := some 500, required := false, dflt := .undefined },
    { name := "fileId", type := "string", size := some 255, required := false, dflt := .undefined },
    { name := "fileSize", type := "integer", size := none, required := false, dflt := .undefined },
    { name := "thumbnailUrl", type := "string", size := some 500, required := false, dflt := .undefined },
    { name := "courseId", type := "string", size := some 255, required := false, dflt := .undefined },
    { name := "uploadedBy", type := "string", size := some 255, required := true, dflt := .undefined },
    { name := "status", type := "string", size := some 50, required := true, dflt := .undefined },
    { name := "tags", type := "string", size := some 1000, required := false, dflt := .undefined },
    { name := "viewCount", type := "integer", size := none, required := false, dflt := .num 0 },
    { name := "publishedAt", type := "datetime", size := none, required := false, dflt := .undefined },
    { name := "createdAt", type := "datetime", size := none, required := true, dflt := .undefined },
    { name := "updatedAt", type := "datetime", size := none, required := false, dflt := .undefined } ]

/-- The `indexes` array of `createLearningMaterialsCollection` (lines 154-161). -/
def learningMaterialsIndexes : List IndexSpec :=
  [ { key := "title_search", type := "fulltext", attributes := ["title"], orders := none },
    { key := "category_index", type := "key", attributes := ["category"], orders := none },
    { key := "status_index", type := "key", attributes := ["status"], orders := none },
    { key := "type_index", type := "key", attributes := ["type"], orders := none },
    { key := "courseId_index", type := "key", attributes := ["courseId"], orders := none },
    { key := "createdAt_index", type := "key", attributes := ["createdAt"], orders := some ["DESC"] } ]

/-- The operation passed to `safeExecute` for one attribute (lines 118-147):
dispatch on `attr.type`; an unknown type falls through and returns `undefined`
without any remote call. -/
def learningMaterialsAttributeOperation (E : Env σ) (attr : AttrSpec) : Prog σ JsVal :=
  if attr.type = "string" then
    remoteCall E (.createStringAttribute DATABASE_ID COLLECTIONS.LEARNING_MATERIALS
      attr.name attr.size attr.required attr.dflt)
  else if attr.type = "integer" then
    remoteCall E (.createIntegerAttribute DATABASE_ID COLLECTIONS.LEARNING_MATERIALS
      attr.name attr.required .undefined .undefined attr.dflt)
  else if attr.type = "datetime" then
    remoteCall E (.createDatetimeAttribute DATABASE_ID COLLECTIONS.LEARNING_MATERIALS
      attr.name attr.required attr.dflt)
  else
    Prog.pure .undefined

/-- Create Learning Materials Collection (lines 73-177). -/
def createLearningMaterialsCollection (E : Env σ) : Prog σ Unit := do
  consoleLog "\n📦 Creating learning_materials collection..."
  let _ ← safeExecute
    (remoteCall E (.createCollection DATABASE_ID COLLECTIONS.LEARNING_MATERIALS
      "Learning Materials"
      [ .read .any, .create (.label "admin"), .create (.label "teacher"),
        .update (.label "admin"), .update (.label "teacher"), .delete (.label "admin") ]
      false (.bool true)))
    "Failed to create learning_materials collection"
    "Learning materials collection created"
  forOf learningMaterialsAttributes (fun attr => do
    let _ ← safeExecute (learningMaterialsAttributeOperation E attr)
      ("Failed to create attribute " ++ attr.name)
      ("Attribute " ++ attr.name ++ " created")
    pure ())
  forOf learningMaterialsIndexes (fun index => do
    let _ ← safeExecute
      (remoteCall E (.createIndex DATABASE_ID COLLECTIONS.LEARNING_MATERIALS
        index.key index.type index.attributes index.orders))
      ("Failed to create index " ++ index.key)
      ("Index " ++ index.key ++ " created")
    pure ())

/-! ## Additions to existing collections (lines 182-234, 386-399) -/

/-- Add linkedStudentId to users collection (lines 182-196). -/
def updateUsersCollection (E : Env σ) : Prog σ Unit := do
  consoleLog "\n👤 Updating users collection..."
  let _ ← safeExecute
    (remoteCall E (.createStringAttribute DATABASE_ID COLLECTIONS.USERS
      "linkedStudentId" (some 255) false .undefined))
    "Failed to add linkedStudentId to users"
    "linkedStudentId attribute added to users collection"
  pure ()

/-- Add userId to students collection (lines 201-234). -/
def updateStudentsCollection (E : Env σ) : Prog σ Unit := do
  consoleLog "\n🎓 Updating students collection..."
  let attrCreated ← safeExecute
    (remoteCall E (.createStringAttribute DATABASE_ID COLLECTIONS.STUDENTS
      "userId" (some 255) false .undefined))
    "Failed to add userId to students"
    "userId attribute added to students collection"
  if attrCreated.truthy then do
    consoleLog "⏳ Waiting for userId attribute to be available..."
    sleep 3000
  else
    pure ()
  let _ ← safeExecute
    (remoteCall E (.createIndex DATABASE_ID COLLECTIONS.STUDENTS
      "userId_index" "key" ["userId"] none))
    "Failed to create userId index on students"
    "userId index created on students collection"
  pure ()

/-- Add enteredAt field to class_sessions collection (lines 386-399). -/
def updateClassSessionsCollection (E : Env σ) : Prog σ Unit := do
  consoleLog "\n📅 Updating class_sessions collection..."
  let _ ← safeExecute
    (remoteCall E (.createDatetimeAttribute DATABASE_ID COLLECTIONS.CLASS_SESSIONS
      "enteredAt" false .undefined))
    "Failed to add enteredAt to class_sessions"
    "enteredAt attribute added to class_sessions collection"
  pure ()

/-! ## Session reports collection (lines 239-381) -/

/-- Create Session Reports Collection (lines 239-381). -/
def createSessionReportsCollection (E : Env σ) : Prog σ Unit := do
  consoleLog "\n📊 Creating session_reports collection..."
  let collectionId := "session_reports"
  let _ ← safeExecute
    (remoteCall E (.createCollection DATABASE_ID collectionId "Session Reports"
      [ .read .any, .create (.label "teacher"), .create (.label "admin"),
        .update (.label "teacher"), .update (.label "admin"), .delete (.label "admin") ]
      false .undefined))
    "Failed to create session_reports collection"
    "session_reports collection created"
  let _ ← safeExecute
    (remoteCall E (.createStringAttribute DATABASE_ID collectionId "sessionId" (some 255) true .undefined))
    "Failed to add sessionId"
    "sessionId attribute added"
  let _ ← safeExecute
    (remoteCall E (.createStringAttribute DATABASE_ID collectionId "studentId" (some 255) true .undefined))
    "Failed to add studentId"
    "studentId attribute added"
  let _ ← safeExecute
    (remoteCall E (.createStringAttribute DATABASE_ID collectionId "teacherId" (some 255) true .undefined))
    "Failed to add teacherId"
    "teacherId attribute added"
  let _ ← safeExecute
    (remoteCall E (.createStringAttribute DATABASE_ID collectionId "attendance" (some 50) true .undefined))
    "Failed to add attendance"
    "attendance attribute added"
  let _ ← safeExecute
    (remoteCall E (.createStringAttribute DATABASE_ID collectionId "performance" (some 50) false .undefined))
    "Failed to add performance"
    "performance attribute added"
  let _ ← safeExecute
    (remoteCall E (.createStringAttribute DATABASE_ID collectionId "summary" (some 500) false .undefined))
    "Failed to add summary"
    "summary attribute added"
  let _ ← safeExecute
    (remoteCall E (.createStringAttribute DATABASE_ID collectionId "homework" (some 2000) false .undefined))
    "Failed to add homework"
    "homework attribute added"
  let _ ← safeExecute
    (remoteCall E (.createStringAttribute DATABASE_ID collectionId "encouragementMessage" (some 2000) false .undefined))
    "Failed to add encouragementMessage"
    "encouragementMessage attribute added"
  let _ ← safeExecute
    (remoteCall E (.createDatetimeAttribute DATABASE_ID collectionId "sessionEnteredAt" false .undefined))
    "Failed to add sessionEnteredAt"
    "sessionEnteredAt attribute added"
  let _ ← safeExecute
    (remoteCall E (.createDatetimeAttribute DATABASE_ID collectionId "sessionEndedAt" false .undefined))
    "Failed to add sessionEndedAt"
    "sessionEndedAt attribute added"
  let _ ← safeExecute
    (remoteCall E (.createBooleanAttribute DATABASE_ID collectionId "teacherLate" false))
    "Failed to add teacherLate"
    "teacherLate attribute added"
  let _ ← safeExecute
    (remoteCall E (.createIntegerAttribute DATABASE_ID collectionId "lateDurationMinutes" false .undefined .undefined .undefined))
    "Failed to add lateDurationMinutes"
    "lateDurationMinutes attribute added"
  let _ ← safeExecute
    (remoteCall E (.createDatetimeAttribute DATABASE_ID collectionId "createdAt" true .undefined))
    "Failed to add createdAt"
    "createdAt attribute added"
  let _ ← safeExecute
    (remoteCall E (.createDatetimeAttribute DATABASE_ID collectionId "updatedAt" true .undefined))
    "Failed to add updatedAt"
    "updatedAt attribute added"
  consoleLog "⏳ Waiting for attributes to be available..."
  sleep 3000
  let _ ← safeExecute
    (remoteCall E (.createIndex DATABASE_ID collectionId "sessionId_index" "key" ["sessionId"] none))
    "Failed to create sessionId index"
    "sessionId index created"
  let _ ← safeExecute
    (remoteCall E (.createIndex DATABASE_ID collectionId "studentId_index" "key" ["studentId"] none))
    "Failed to create studentId index"
    "studentId index created"
  let _ ← safeExecute
    (remoteCall E (.createIndex DATABASE_ID collectionId "teacherId_index" "key" ["teacherId"] none))
    "Failed to create teacherId index"
    "teacherId index created"
  pure ()

/-! ## Storage bucket (lines 404-440) -/

/-- Create Storage Bucket for Learning Materials (lines 404-440). -/
def createStorageBucket (E : Env σ) : Prog σ Unit := do
  consoleLog "\n🗄️  Creating storage bucket for learning materials..."
  let bucketId := "learning_materials"
  Prog.tryCatch
    (do
      let _ ← safeExecute
        (remoteCall E (.createBucket bucketId "Learning Materials"
          [ .read .any, .create (.label "admin"), .create (.label "teacher"),
            .update (.label "admin"), .delete (.label "admin") ]
          false true 100000000 [] "gzip" true true))
        "Failed to create storage bucket"
        "Storage bucket created for learning materials"
      pure ())
    (fun error =>
      if error.code = JsVal.num 403 ∧ error.type = JsVal.str "additional_resource_not_allowed" then do
        consoleLog "⚠️  Storage bucket limit reached. You can use an existing bucket or upgrade your plan."
        consoleLog "ℹ️  Continuing without creating new bucket..."
      else
        Prog.throw error)

/-! ## Entry point (lines 445-474) -/

/-- Main Setup Function (lines 445-471).  The value is the exit status the
process ends with: `process.exit(1)` in the `catch` block, and 0 when the
function returns normally. -/
def main (E : Env σ) : Prog σ Nat := do
  consoleLog "🚀 Starting Quran Gate Academy Appwrite Setup...\n"
  consoleLog ("📍 Endpoint: " ++ E.APPWRITE_ENDPOINT)
  consoleLog ("🔑 Project: " ++ E.APPWRITE_PROJECT_ID)
  consoleLog ("🗄️  Database: " ++ DATABASE_ID ++ "\n")
  Prog.tryCatch
    (do
      createLearningMaterialsCollection E
      createSessionReportsCollection E
      updateUsersCollection E
      updateStudentsCollection E
      updateClassSessionsCollection E
      createStorageBucket E
      consoleLog "\n✨ Setup completed successfully!\n"
      consoleLog "📝 Next steps:"
      consoleLog "1. Update Flutter data models (UserModel, StudentModel, LearningMaterialModel)"
      consoleLog "2. Add roleStudent to AppConfig"
      consoleLog "3. Update PermissionService with student role"
      consoleLog "4. Implement student dashboard and learning materials features\n"
      pure 0)
    (fun error => do
      consoleError "\n❌ Setup failed:" (.err error)
      pure 1)

/-! ## Vocabulary for statements about runs -/

/-- Outcome `Applied`: the call succeeded. -/
def Response.applied : Response → Bool
  | .ok _ => true
  | .error _ => false

/-- Outcome `AlreadyPresent`: the call failed with error code 409. -/
def Response.alreadyPresent : Response → Bool
  | .ok _ => false
  | .error e => decide (e.code = JsVal.num 409)

/-- The resource-limit error: code 403 and type `additional_resource_not_allowed`. -/
def JsError.isLimit (e : JsError) : Bool :=
  decide (e.code = JsVal.num 403 ∧ e.type = JsVal.str "additional_resource_not_allowed")

/-- The call is `storage.createBucket`. -/
def Call.isBucket : Call → Bool
  | .createBucket .. => true
  | _ => false

/-- The call is `databases.createIndex`. -/
def Call.isIndex : Call → Bool
  | .createIndex .. => true
  | _ => false

/-- The call creates the attribute `key` of collection `collectionId`. -/
def Call.isAttributeOf (collectionId key : String) : Call → Bool
  | .createStringAttribute _ c k _ _ _ => decide (c = collectionId ∧ k = key)
  | .createIntegerAttribute _ c k _ _ _ _ => decide (c = collectionId ∧ k = key)
  | .createDatetimeAttribute _ c k _ _ => decide (c = collectionId ∧ k = key)
  | .createBooleanAttribute _ c k _ => decide (c = collectionId ∧ k = key)
  | _ => false

/-- Outcome `Fatal` of a call: an error that is neither a conflict nor the
resource-limit error of the bucket call. -/
def Fatal (c : Call) (r : Response) : Bool :=
  match r with
  | .ok _ => false
  | .error e => !(decide (e.code = JsVal.num 409)) && !(c.isBucket && e.isLimit)

/-- Kind, collection (or bucket) and key of a call. -/
def Call.summary : Call → String × String × String
  | .createCollection _ c _ _ _ _ => ("collection", c, "")
  | .createStringAttribute _ c k _ _ _ => ("string", c, k)
  | .createIntegerAttribute _ c k _ _ _ _ => ("integer", c, k)
  | .createDatetimeAttribute _ c k _ _ => ("datetime", c, k)
  | .createBooleanAttribute _ c k _ => ("boolean", c, k)
  | .createIndex _ c k _ _ _ => ("index", c, k)
  | .createBucket b _ _ _ _ _ _ _ _ _ => ("bucket", b, "")

/-- The remote calls of a trace, in order. -/
def callsOf : List Event → List Call
  | [] => []
  | .call c _ :: evs => c :: callsOf evs
  | _ :: evs => callsOf evs

/-- The delays of a trace, in order. -/
def waitsOf : List Event → List Nat
  | [] => []
  | .wait ms :: evs => ms :: waitsOf evs
  | _ :: evs => waitsOf evs

/-- The event is console output. -/
def Event.isConsole : Event → Bool
  | .log _ => true
  | .error _ _ => true
  | _ => false

/-- The event is a line written by `console.error`. -/
def Event.isConsoleError : Event → Bool
  | .error _ _ => true
  | _ => false

/-- The remote calls and delays of a trace, console output dropped. -/
def effectsOf (evs : List Event) : List Event := evs.filter (fun ev => !ev.isConsole)

/-- The world a run starts from: a remote state and an empty trace. -/
def World.start (s : σ) : World σ := { remote := s, trace := [] }

/-- Exit status of a run of `main` started on remote state `s`. -/
def exitStatus (E : Env σ) (s : σ) : Except JsError Nat := (main E (World.start s)).1

/-- Trace of a run of `main` started on remote state `s`. -/
def runTrace (E : Env σ) (s : σ) : List Event := (main E (World.start s)).2.trace

/-- Remote state after a run of `main` started on remote state `s`. -/
def finalRemote (E : Env σ) (s : σ) : σ := (main E (World.start s)).2.remote

/-! ## A remote with create-if-absent semantics -/

/-- Schema held by the remote: collection ids, attributes and indexes by
(collection, key), bucket ids. -/
structure Schema where
  collections : List String
  attributes : List (String × String)
  indexes : List (String × String)
  buckets : List String
  deriving DecidableEq, Repr

/-- The object a call would create is present in the schema. -/
def Schema.has (s : Schema) : Call → Bool
  | .createCollection _ c _ _ _ _ => decide (c ∈ s.collections)
  | .createStringAttribute _ c k _ _ _ => decide ((c, k) ∈ s.attributes)
  | .createIntegerAttribute _ c k _ _ _ _ => decide ((c, k) ∈ s.attributes)
  | .createDatetimeAttribute _ c k _ _ => decide ((c, k) ∈ s.attributes)
  | .createBooleanAttribute _ c k _ => decide ((c, k) ∈ s.attributes)
  | .createIndex _ c k _ _ _ => decide ((c, k) ∈ s.indexes)
  | .createBucket b _ _ _ _ _ _ _ _ _ => decide (b ∈ s.buckets)

/-- The schema with the object of a call added. -/
def Schema.add (s : Schema) : Call → Schema
  | .createCollection _ c _ _ _ _ => { s with collections := s.collections ++ [c] }
  | .createStringAttribute _ c k _ _ _ => { s with attributes := s.attributes ++ [(c, k)] }
  | .createIntegerAttribute _ c k _ _ _ _ => { s with attributes := s.attributes ++ [(c, k)] }
  | .createDatetimeAttribute _ c k _ _ => { s with attributes := s.attributes ++ [(c, k)] }
  | .createBooleanAttribute _ c k _ => { s with attributes := s.attributes ++ [(c, k)] }
  | .createIndex _ c k _ _ _ => { s with indexes := s.indexes ++ [(c, k)] }
  | .createBucket b _ _ _ _ _ _ _ _ _ => { s with buckets := s.buckets ++ [b] }

/-- The conflict error of the remote: code 409. -/
def conflictError : JsError :=
  { code := .num 409, type := .str "conflict", message := .str "already exists" }

/-- A create call succeeds and adds the object when its id or key is absent,
and fails with code 409, leaving the schema unchanged, when it is present. -/
def Schema.respond (s : Schema) (c : Call) : Response × Schema :=
  if s.has c then (.error conflictError, s) else (.ok (c.summary.2.2), s.add c)

/-- An error that is no conflict: code 500. -/
def serverError : JsError :=
  { code := .num 500, type := .str "general_unknown", message := .str "Server Error" }

/-- The resource-limit error: code 403 with type `additional_resource_not_allowed`. -/
def limitError : JsError :=
  { code := .num 403, type := .str "additional_resource_not_allowed",
    message := .str "limit reached" }

/-- The environment whose remote rejects the creation of attribute `title` of
`learning_materials` with code 500 and accepts every other call. -/
def titleFailEnv : Env Unit :=
  { APPWRITE_ENDPOINT := "", APPWRITE_PROJECT_ID := "",
    respond := fun _ c =>
      if c = Call.createStringAttribute "quran_gate_db" "learning_materials" "title"
          (some 255) true .undefined
      then (.error serverError, ()) else (.ok c.summary.2.2, ()) }

/-- The environment whose remote rejects the creation of attribute `title` of
`learning_materials` with the resource-limit error and accepts every other call. -/
def titleLimitEnv : Env Unit :=
  { APPWRITE_ENDPOINT := "", APPWRITE_PROJECT_ID := "",
    respond := fun _ c =>
      if c = Call.createStringAttribute "quran_gate_db" "learning_materials" "title"
          (some 255) true .undefined
      then (.error limitError, ()) else (.ok c.summary.2.2, ()) }

/-- The environment whose remote rejects the bucket with the resource-limit
error and accepts every other call. -/
def bucketLimitEnv : Env Unit :=
  { APPWRITE_ENDPOINT := "", APPWRITE_PROJECT_ID := "",
    respond := fun _ c =>
      if c.isBucket then (.error limitError, ()) else (.ok c.summary.2.2, ()) }

/-- The environment whose remote has create-if-absent semantics. -/
def schemaEnv (endpoint project : String) : Env Schema :=
  { APPWRITE_ENDPOINT := endpoint, APPWRITE_PROJECT_ID := project, respond := Schema.respond }

/-- A fresh target: only the pre-existing collections `users`, `students` and
`class_sessions`, without the attributes, indexes and bucket of the plan. -/
def freshTarget : Schema :=
  { collections := ["users", "students", "class_sessions"],
    attributes := [], indexes := [], buckets := [] }

/-- The environment whose remote answers every call with the conflict error. -/
def conflictEnv : Env Unit :=
  { APPWRITE_ENDPOINT := "", APPWRITE_PROJECT_ID := "",
    respond := fun _ _ => (.error conflictError, ()) }

/-- The environment whose remote accepts every call. -/
def acceptEnv : Env Unit :=
  { APPWRITE_ENDPOINT := "", APPWRITE_PROJECT_ID := "",
    respond := fun _ c => (.ok c.summary.2.2, ()) }

/-! ## The script as a list of statements

The body of `main` is a straight line of statements of five forms.  The list
below is proved equal to the functions above (`main_eq_steps`); it serves the
proofs, which go by induction over the list. -/

/-- The five statement forms of the script. -/
inductive Step where
  | say (line : String)
  | exec (c : Call) (errorMessage successMessage : String)
  | pause (ms : Nat)
  | execThenPause (c : Call) (errorMessage successMessage line : String) (ms : Nat)
  | execTolerant (c : Call) (errorMessage successMessage : String)
  deriving DecidableEq, Repr

/-- Execution of one statement form, written with the operations of the script. -/
def runStep (E : Env σ) : Step → Prog σ Unit
  | .say line => consoleLog line
  | .exec c errorMessage successMessage => do
      let _ ← safeExecute (remoteCall E c) errorMessage successMessage
      pure ()
  | .pause ms => sleep ms
  | .execThenPause c errorMessage successMessage line ms => do
      let attrCreated ← safeExecute (remoteCall E c) errorMessage successMessage
      if attrCreated.truthy then do
        consoleLog line
        sleep ms
      else
        pure ()
  | .execTolerant c errorMessage successMessage =>
      Prog.tryCatch
        (do
          let _ ← safeExecute (remoteCall E c) errorMessage successMessage
          pure ())
        (fun error =>
          if error.code = JsVal.num 403 ∧ error.type = JsVal.str "additional_resource_not_allowed" then do
            consoleLog "⚠️  Storage bucket limit reached. You can use an existing bucket or upgrade your plan."
            consoleLog "ℹ️  Continuing without creating new bucket..."
          else
            Prog.throw error)

/-- Execution of a list of statements, in order. -/
def runSteps (E : Env σ) (steps : List Step) : Prog σ Unit := forOf steps (runStep E)

/-- The remote call of a statement, if it has one. -/
def Step.call : Step → Option Call
  | .exec c _ _ => some c
  | .execThenPause c _ _ _ _ => some c
  | .execTolerant c _ _ => some c
  | _ => none

/-- The remote calls of a list of statements, in order. -/
def stepCalls (steps : List Step) : List Call := steps.filterMap Step.call

/-- Events of `safeExecute` around a remote call, given the answer. -/
def safeEvents (c : Call) (errorMessage successMessage : String) : Response → List Event
  | .ok json => [.call c (.ok json), .log ("✅ " ++ successMessage)]
  | .error e =>
      if e.code = JsVal.num 409 then
        [.call c (.error e), .log ("ℹ️  " ++ successMessage ++ " (already exists)")]
      else
        [.call c (.error e), .error ("❌ " ++ errorMessage ++ ":") (.val e.message)]

/-- Events of one statement, given the answer to its remote call. -/
def stepEvents : Step → Response → List Event
  | .say line, _ => [.log line]
  | .exec c em sm, r => safeEvents c em sm r
  | .pause ms, _ => [.wait ms]
  | .execThenPause c em sm line ms, r =>
      safeEvents c em sm r ++ (if r.applied then [.log line, .wait ms] else [])
  | .execTolerant c em sm, r =>
      safeEvents c em sm r ++
        (match r with
         | .ok _ => []
         | .error e =>
            if e.isLimit then
              [.log "⚠️  Storage bucket limit reached. You can use an existing bucket or upgrade your plan.",
               .log "ℹ️  Continuing without creating new bucket..."]
            else [])

/-- The error one statement throws, given the answer to its remote call. -/
def stepError : Step → Response → Option JsError
  | .say _, _ => none
  | .pause _, _ => none
  | .exec _ _ _, .ok _ => none
  | .exec _ _ _, .error e => if e.code = JsVal.num 409 then none else some e
  | .execThenPause _ _ _ _ _, .ok _ => none
  | .execThenPause _ _ _ _ _, .error e => if e.code = JsVal.num 409 then none else some e
  | .execTolerant _ _ _, .ok _ => none
  | .execTolerant _ _ _, .error e =>
      if e.code = JsVal.num 409 then none else if e.isLimit then none else some e

/-- Result of a statement that throws the given error, or none. -/
def resultOf : Option JsError → Except JsError Unit
  | none => .ok ()
  | some e => .error e

/-- The events a list of statements can produce, with the result: each
statement contributes its events for some answer, and the first statement that
throws ends the run. -/
inductive Shape : List Step → List Event → Except JsError Unit → Prop where
  | nil : Shape [] [] (.ok ())
  | cont (st : Step) (resp : Response) (rest : List Step) (evs : List Event)
      (r : Except JsError Unit) :
      stepError st resp = none → Shape rest evs r →
      Shape (st :: rest) (stepEvents st resp ++ evs) r
  | stop (st : Step) (resp : Response) (rest : List Step) (e : JsError) :
      stepError st resp = some e →
      Shape (st :: rest) (stepEvents st resp) (.error e)

/-- The remote call of one entry of the `attributes` array, if its type is known. -/
def AttrSpec.call (attr : AttrSpec) : Option Call :=
  if attr.type = "string" then
    some (.createStringAttribute DATABASE_ID COLLECTIONS.LEARNING_MATERIALS
      attr.name attr.size attr.required attr.dflt)
  else if attr.type = "integer" then
    some (.createIntegerAttribute DATABASE_ID COLLECTIONS.LEARNING_MATERIALS
      attr.name attr.required .undefined .undefined attr.dflt)
  else if attr.type = "datetime" then
    some (.createDatetimeAttribute DATABASE_ID COLLECTIONS.LEARNING_MATERIALS
      attr.name attr.required attr.dflt)
  else
    none

/-- Statement of one entry of the `attributes` array. -/
def AttrSpec.step (attr : AttrSpec) : Option Step :=
  attr.call.map (fun c => .exec c ("Failed to create attribute " ++ attr.name)
    ("Attribute " ++ attr.name ++ " created"))

/-- Statement of one entry of the `indexes` array. -/
def IndexSpec.step (index : IndexSpec) : Step :=
  .exec (.createIndex DATABASE_ID COLLECTIONS.LEARNING_MATERIALS
      index.key index.type index.attributes index.orders)
    ("Failed to create index " ++ index.key)
    ("Index " ++ index.key ++ " created")

/-- Statements of `createLearningMaterialsCollection`. -/
def learningMaterialsSteps : List Step :=
  [ .say "\n📦 Creating learning_materials collection...",
    .exec (.createCollection DATABASE_ID COLLECTIONS.LEARNING_MATERIALS "Learning Materials"
      [ .read .any, .create (.label "admin"), .create (.label "teacher"),
        .update (.label "admin"), .update (.label "teacher"), .delete (.label "admin") ]
      false (.bool true))
      "Failed to create learning_materials collection"
      "Learning materials collection created" ]
  ++ learningMaterialsAttributes.filterMap AttrSpec.step
  ++ learningMaterialsIndexes.map IndexSpec.step

/-- Statements of `createSessionReportsCollection`. -/
def sessionReportsSteps : List Step :=
  [ .say "\n📊 Creating session_reports collection...",
    .exec (.createCollection DATABASE_ID "session_reports" "Session Reports"
      [ .read .any, .create (.label "teacher"), .create (.label "admin"),
        .update (.label "teacher"), .update (.label "admin"), .delete (.label "admin") ]
      false .undefined)
      "Failed to create session_reports collection"
      "session_reports collection created",
    .exec (.createStringAttribute DATABASE_ID "session_reports" "sessionId" (some 255) true .undefined)
      "Failed to add sessionId" "sessionId attribute added",
    .exec (.createStringAttribute DATABASE_ID "session_reports" "studentId" (some 255) true .undefined)
      "Failed to add studentId" "studentId attribute added",
    .exec (.createStringAttribute DATABASE_ID "session_reports" "teacherId" (some 255) true .undefined)
      "Failed to add teacherId" "teacherId attribute added",
    .exec (.createStringAttribute DATABASE_ID "session_reports" "attendance" (some 50) true .undefined)
      "Failed to add attendance" "attendance attribute added",
    .exec (.createStringAttribute DATABASE_ID "session_reports" "performance" (some 50) false .undefined)
      "Failed to add performance" "performance attribute added",
    .exec (.createStringAttribute DATABASE_ID "session_reports" "summary" (some 500) false .undefined)
      "Failed to add summary" "summary attribute added",
    .exec (.createStringAttribute DATABASE_ID "session_reports" "homework" (some 2000) false .undefined)
      "Failed to add homework" "homework attribute added",
    .exec (.createStringAttribute DATABASE_ID "session_reports" "encouragementMessage" (some 2000) false .undefined)
      "Failed to add encouragementMessage" "encouragementMessage attribute added",
    .exec (.createDatetimeAttribute DATABASE_ID "session_reports" "sessionEnteredAt" false .undefined)
      "Failed to add sessionEnteredAt" "sessionEnteredAt attribute added",
    .exec (.createDatetimeAttribute DATABASE_ID "session_reports" "sessionEndedAt" false .undefined)
      "Failed to add sessionEndedAt" "sessionEndedAt attribute added",
    .exec (.createBooleanAttribute DATABASE_ID "session_reports" "teacherLate" false)
      "Failed to add teacherLate" "teacherLate attribute added",
    .exec (.createIntegerAttribute DATABASE_ID "session_reports" "lateDurationMinutes" false .undefined .undefined .undefined)
      "Failed to add lateDurationMinutes" "lateDurationMinutes attribute added",
    .exec (.createDatetimeAttribute DATABASE_ID "session_reports" "createdAt" true .undefined)
      "Failed to add createdAt" "createdAt attribute added",
    .exec (.createDatetimeAttribute DATABASE_ID "session_reports" "updatedAt" true .undefined)
      "Failed to add updatedAt" "updatedAt attribute added",
    .say "⏳ Waiting for attributes to be available...",
    .pause 3000,
    .exec (.createIndex DATABASE_ID "session_reports" "sessionId_index" "key" ["sessionId"] none)
      "Failed to create sessionId index" "sessionId index created",
    .exec (.createIndex DATABASE_ID "session_reports" "studentId_index" "key" ["studentId"] none)
      "Failed to create studentId index" "studentId index created",
    .exec (.createIndex DATABASE_ID "session_reports" "teacherId_index" "key" ["teacherId"] none)
      "Failed to create teacherId index" "teacherId index created" ]

/-- Statements of `updateUsersCollection`. -/
def usersSteps : List Step :=
  [ .say "\n👤 Updating users collection...",
    .exec (.createStringAttribute DATABASE_ID COLLECTIONS.USERS
      "linkedStudentId" (some 255) false .undefined)
      "Failed to add linkedStudentId to users"
      "linkedStudentId attribute added to users collection" ]

/-- Statements of `updateStudentsCollection`. -/
def studentsSteps : List Step :=
  [ .say "\n🎓 Updating students collection...",
    .execThenPause (.createStringAttribute DATABASE_ID COLLECTIONS.STUDENTS
      "userId" (some 255) false .undefined)
      "Failed to add userId to students"
      "userId attribute added to students collection"
      "⏳ Waiting for userId attribute to be available..." 3000,
    .exec (.createIndex DATABASE_ID COLLECTIONS.STUDENTS "userId_index" "key" ["userId"] none)
      "Failed to create userId index on students"
      "userId index created on students collection" ]

/-- Statements of `updateClassSessionsCollection`. -/
def classSessionsSteps : List Step :=
  [ .say "\n📅 Updating class_sessions collection...",
    .exec (.createDatetimeAttribute DATABASE_ID COLLECTIONS.CLASS_SESSIONS
      "enteredAt" false .undefined)
      "Failed to add enteredAt to class_sessions"
      "enteredAt attribute added to class_sessions collection" ]

/-- Statements of `createStorageBucket`. -/
def bucketSteps : List Step :=
  [ .say "\n🗄️  Creating storage bucket for learning materials...",
    .execTolerant (.createBucket "learning_materials" "Learning Materials"
      [ .read .any, .create (.label "admin"), .create (.label "teacher"),
        .update (.label "admin"), .delete (.label "admin") ]
      false true 100000000 [] "gzip" true true)
      "Failed to create storage bucket"
      "Storage bucket created for learning materials" ]

/-- The lines printed after the last step when nothing was thrown. -/
def successSteps : List Step :=
  [ .say "\n✨ Setup completed successfully!\n",
    .say "📝 Next steps:",
    .say "1. Update Flutter data models (UserModel, StudentModel, LearningMaterialModel)",
    .say "2. Add roleStudent to AppConfig",
    .say "3. Update PermissionService with student role",
    .say "4. Implement student dashboard and learning materials features\n" ]

/-- Statements of the `try` block of `main`. -/
def mainSteps : List Step :=
  learningMaterialsSteps ++ sessionReportsSteps ++ usersSteps ++ studentsSteps
    ++ classSessionsSteps ++ bucketSteps ++ successSteps

/-- The four lines `main` prints before the `try` block. -/
def headerEvents (E : Env σ) : List Event :=
  [ .log "🚀 Starting Quran Gate Academy Appwrite Setup...\n",
    .log ("📍 Endpoint: " ++ E.APPWRITE_ENDPOINT),
    .log ("🔑 Project: " ++ E.APPWRITE_PROJECT_ID),
    .log ("🗄️  Database: " ++ DATABASE_ID ++ "\n") ]

/-! ## Checks on lists of statements and on traces -/

/-- The bucket call, and only the bucket call, sits in the tolerant statement form. -/
def Step.wf : Step → Bool
  | .exec c _ _ => !c.isBucket
  | .execThenPause c _ _ _ _ => !c.isBucket
  | .execTolerant c _ _ => c.isBucket
  | _ => true

/-- After a tolerant statement only statements without a remote call follow. -/
def quietAfterTolerant : List Step → Bool
  | [] => true
  | .execTolerant _ _ _ :: rest => rest.all (fun st => st.call.isNone)
  | _ :: rest => quietAfterTolerant rest

/-- After a call with a fatal outcome the trace holds only `console.error` lines. -/
def failFast : List Event → Bool
  | [] => true
  | .call c r :: rest => if Fatal c r then rest.all Event.isConsoleError else failFast rest
  | _ :: rest => failFast rest

/-- Every index call comes after attribute calls, on the same collection, for
all the attribute names it lists; `seen` are the calls before `calls`. -/
def indexOrdered (seen : List Call) : List Call → Bool
  | [] => true
  | c :: rest =>
      (match c with
       | .createIndex _ coll _ _ attrs _ =>
          attrs.all (fun a => seen.any (Call.isAttributeOf coll a))
       | _ => true) && indexOrdered (seen ++ [c]) rest

/-- The remote calls and delays of a trace in order, answers and console
output dropped. -/
def outlineOf : List Event → List (Call ⊕ Nat)
  | [] => []
  | .call c _ :: evs => .inl c :: outlineOf evs
  | .wait ms :: evs => .inr ms :: outlineOf evs
  | _ :: evs => outlineOf evs

/-- Calls and delays of one statement whose call, if any, is answered
`Applied` (`applied = true`) or `AlreadyPresent` (`applied = false`). -/
def Step.outline (applied : Bool) : Step → List (Call ⊕ Nat)
  | .say _ => []
  | .exec c _ _ => [.inl c]
  | .pause ms => [.inr ms]
  | .execThenPause c _ _ _ ms => if applied then [.inl c, .inr ms] else [.inl c]
  | .execTolerant c _ _ => [.inl c]

/-- Calls and delays of a list of statements, all answered alike. -/
def outlineSteps (applied : Bool) : List Step → List (Call ⊕ Nat)
  | [] => []
  | st :: rest => st.outline applied ++ outlineSteps applied rest

/-- The answers to the remote calls of a trace, in order. -/
def answersOf : List Event → List Response
  | [] => []
  | .call _ r :: evs => r :: answersOf evs
  | _ :: evs => answersOf evs

/-- The remote's transition on its state alone. -/
def Schema.after (s : Schema) (c : Call) : Schema := (Schema.respond s c).2

/-- The statement form whose delay depends on the answer. -/
def Step.isConditional : Step → Bool
  | .execThenPause _ _ _ _ _ => true
  | _ => false

/-- The remote calls of the script in the order of the source. -/
def plannedCalls : List Call := stepCalls mainSteps

/-! ## Named calls and the declared plan -/

/-- The call that creates the `learning_materials` collection (lines 77-91). -/
def learningMaterialsCollectionCall : Call :=
  .createCollection "quran_gate_db" "learning_materials" "Learning Materials"
    [ .read .any, .create (.label "admin"), .create (.label "teacher"),
      .update (.label "admin"), .update (.label "teacher"), .delete (.label "admin") ]
    false (.bool true)

/-- The call that creates attribute `title` of `learning_materials` (line 98). -/
def titleCall : Call :=
  .createStringAttribute "quran_gate_db" "learning_materials" "title" (some 255) true .undefined

/-- The call that creates attribute `userId` of `students` (lines 205-211). -/
def userIdCall : Call :=
  .createStringAttribute "quran_gate_db" "students" "userId" (some 255) false .undefined

/-- The call that creates index `userId_index` of `students` (lines 224-230). -/
def userIdIndexCall : Call :=
  .createIndex "quran_gate_db" "students" "userId_index" "key" ["userId"] none

/-- The call that creates the storage bucket (lines 411-428). -/
def bucketCall : Call :=
  .createBucket "learning_materials" "Learning Materials"
    [ .read .any, .create (.label "admin"), .create (.label "teacher"),
      .update (.label "admin"), .delete (.label "admin") ]
    false true 100000000 [] "gzip" true true

/-- First statement of `updateStudentsCollection`: the banner. -/
def studentsBannerStep : Step := .say "\n🎓 Updating students collection..."

/-- Second statement of `updateStudentsCollection`: the attribute with the
conditional wait. -/
def studentsAttrStep : Step :=
  .execThenPause userIdCall "Failed to add userId to students"
    "userId attribute added to students collection"
    "⏳ Waiting for userId attribute to be available..." 3000

/-- Third statement of `updateStudentsCollection`: the index. -/
def studentsIndexStep : Step :=
  .exec userIdIndexCall "Failed to create userId index on students"
    "userId index created on students collection"

/-- The declared order of the 46 remote calls: kind, collection or bucket, key. -/
def declaredOrder : List (String × String × String) :=
  [ ("collection", "learning_materials", ""),
    ("string", "learning_materials", "title"),
    ("string", "learning_materials", "description"),
    ("string", "learning_materials", "category"),
    ("string", "learning_materials", "type"),
    ("string", "learning_materials", "fileUrl"),
    ("string", "learning_materials", "fileId"),
    ("integer", "learning_materials", "fileSize"),
    ("string", "learning_materials", "thumbnailUrl"),
    ("string", "learning_materials", "courseId"),
    ("string", "learning_materials", "uploadedBy"),
    ("string", "learning_materials", "status"),
    ("string", "learning_materials", "tags"),
    ("integer", "learning_materials", "viewCount"),
    ("datetime", "learning_materials", "publishedAt"),
    ("datetime", "learning_materials", "createdAt"),
    ("datetime", "learning_materials", "updatedAt"),
    ("index", "learning_materials", "title_search"),
    ("index", "learning_materials", "category_index"),
    ("index", "learning_materials", "status_index"),
    ("index", "learning_materials", "type_index"),
    ("index", "learning_materials", "courseId_index"),
    ("index", "learning_materials", "createdAt_index"),
    ("collection", "session_reports", ""),
    ("string", "session_reports", "sessionId"),
    ("string", "session_reports", "studentId"),
    ("string", "session_reports", "teacherId"),
    ("string", "session_reports", "attendance"),
    ("string", "session_reports", "performance"),
    ("string", "session_reports", "summary"),
    ("string", "session_reports", "homework"),
    ("string", "session_reports", "encouragementMessage"),
    ("datetime", "session_reports", "sessionEnteredAt"),
    ("datetime", "session_reports", "sessionEndedAt"),
    ("boolean", "session_reports", "teacherLate"),
    ("integer", "session_reports", "lateDurationMinutes"),
    ("datetime", "session_reports", "createdAt"),
    ("datetime", "session_reports", "updatedAt"),
    ("index", "session_reports", "sessionId_index"),
    ("index", "session_reports", "studentId_index"),
    ("index", "session_reports", "teacherId_index"),
    ("string", "users", "linkedStudentId"),
    ("string", "students", "userId"),
    ("index", "students", "userId_index"),
    ("datetime", "class_sessions", "enteredAt"),
    ("bucket", "learning_materials", "") ]

/-- The ten indexes of the plan. -/
def declaredIndexes : List (String × String × String) :=
  [ ("index", "learning_materials", "title_search"),
    ("index", "learning_materials", "category_index"),
    ("index", "learning_materials", "status_index"),
    ("index", "learning_materials", "type_index"),
    ("index", "learning_materials", "courseId_index"),
    ("index", "learning_materials", "createdAt_index"),
    ("index", "session_reports", "sessionId_index"),
    ("index", "session_reports", "studentId_index"),
    ("index", "session_reports", "teacherId_index"),
    ("index", "students", "userId_index") ]

end Prog

/-! ## Basic facts about the computation type -/

section Laws

variable {σ α β γ : Type}

theorem bind_def (p : Prog σ α) (f : α → Prog σ β) : (p >>= f) = Prog.bind p f := rfl

theorem pure_def (a : α) : (pure a : Prog σ α) = Prog.pure a := rfl

theorem Prog.pure_bind (a : α) (f : α → Prog σ β) : Prog.bind (Prog.pure a) f = f a := rfl

theorem Prog.bind_assoc (p : Prog σ α) (f : α → Prog σ β) (g : β → Prog σ γ) :
    Prog.bind (Prog.bind p f) g = Prog.bind p (fun a => Prog.bind (f a) g) := by
  funext w
  simp only [Prog.bind]
  rcases p w with ⟨r, w1⟩
  cases r <;> rfl

theorem Prog.bind_pure_unit (p : Prog σ Unit) : Prog.bind p (fun _ => Prog.pure ()) = p := by
  funext w
  simp only [Prog.bind, Prog.pure]
  rcases p w with ⟨r, w1⟩
  cases r <;> rfl

theorem Prog.ite_bind (c : Prop) [Decidable c] (p q : Prog σ α) (f : α → Prog σ β) :
    Prog.bind (if c then p else q) f = if c then Prog.bind p f else Prog.bind q f := by
  split <;> rfl

theorem forOf_append {δ : Type} (xs ys : List δ) (body : δ → Prog σ Unit) :
    forOf (xs ++ ys) body = Prog.bind (forOf xs body) (fun _ => forOf ys body) := by
  induction xs with
  | nil => rfl
  | cons x xs ih =>
    show Prog.bind (body x) (fun _ => forOf (xs ++ ys) body) = _
    rw [ih]
    simp only [forOf, Prog.bind_assoc]

theorem runSteps_append (E : Env σ) (xs ys : List Step) :
    runSteps E (xs ++ ys) = Prog.bind (runSteps E xs) (fun _ => runSteps E ys) :=
  forOf_append xs ys (runStep E)

end Laws

/-! ## The functions of the script are their lists of statements -/

section Steps

variable {σ : Type}

theorem createLearningMaterialsCollection_eq_steps (E : Env σ) :
    createLearningMaterialsCollection E = runSteps E learningMaterialsSteps := by
  simp [createLearningMaterialsCollection, runSteps, learningMaterialsSteps, forOf, runStep,
    learningMaterialsAttributes, learningMaterialsIndexes, learningMaterialsAttributeOperation,
    AttrSpec.step, AttrSpec.call, IndexSpec.step, bind_def, pure_def, Prog.bind_assoc,
    Prog.pure_bind, Prog.bind_pure_unit]

theorem createSessionReportsCollection_eq_steps (E : Env σ) :
    createSessionReportsCollection E = runSteps E sessionReportsSteps := by
  simp [createSessionReportsCollection, runSteps, sessionReportsSteps, forOf, runStep,
    bind_def, pure_def, Prog.bind_assoc, Prog.pure_bind, Prog.bind_pure_unit]

theorem updateUsersCollection_eq_steps (E : Env σ) :
    updateUsersCollection E = runSteps E usersSteps := by
  simp [updateUsersCollection, runSteps, usersSteps, forOf, runStep,
    bind_def, pure_def, Prog.bind_assoc, Prog.pure_bind, Prog.bind_pure_unit]

theorem updateStudentsCollection_eq_steps (E : Env σ) :
    updateStudentsCollection E = runSteps E studentsSteps := by
  simp [updateStudentsCollection, runSteps, studentsSteps, forOf, runStep,
    bind_def, pure_def, Prog.bind_assoc, Prog.pure_bind, Prog.bind_pure_unit, Prog.ite_bind]

theorem updateClassSessionsCollection_eq_steps (E : Env σ) :
    updateClassSessionsCollection E = runSteps E classSessionsSteps := by
  simp [updateClassSessionsCollection, runSteps, classSessionsSteps, forOf, runStep,
    bind_def, pure_def, Prog.bind_assoc, Prog.pure_bind, Prog.bind_pure_unit]

theorem createStorageBucket_eq_steps (E : Env σ) :
    createStorageBucket E = runSteps E bucketSteps := by
  simp [createStorageBucket, runSteps, bucketSteps, forOf, runStep,
    bind_def, pure_def, Prog.bind_assoc, Prog.pure_bind, Prog.bind_pure_unit]

theorem main_eq_steps (E : Env σ) :
    main E =
      Prog.bind (fun w => (.ok (), { w with trace := w.trace ++ headerEvents E }))
        (fun _ => Prog.tryCatch
          (Prog.bind (runSteps E mainSteps) (fun _ => Prog.pure 0))
          (fun error => Prog.bind (consoleError "\n❌ Setup failed:" (.err error))
            (fun _ => Prog.pure 1))) := by
  have hsucc : ∀ k : Prog σ Nat,
      Prog.bind (runSteps E successSteps) (fun _ => k) =
        Prog.bind (consoleLog "\n✨ Setup completed successfully!\n") (fun _ =>
        Prog.bind (consoleLog "📝 Next steps:") (fun _ =>
        Prog.bind (consoleLog
          "1. Update Flutter data models (UserModel, StudentModel, LearningMaterialModel)") (fun _ =>
        Prog.bind (consoleLog "2. Add roleStudent to AppConfig") (fun _ =>
        Prog.bind (consoleLog "3. Update PermissionService with student role") (fun _ =>
        Prog.bind (consoleLog
          "4. Implement student dashboard and learning materials features\n") (fun _ => k)))))) := by
    intro k
    simp [runSteps, successSteps, forOf, runStep, Prog.bind_assoc, Prog.pure_bind]
  funext w
  simp only [main, mainSteps, runSteps_append, bind_def, pure_def, Prog.bind_assoc,
    createLearningMaterialsCollection_eq_steps, createSessionReportsCollection_eq_steps,
    updateUsersCollection_eq_steps, updateStudentsCollection_eq_steps,
    updateClassSessionsCollection_eq_steps, createStorageBucket_eq_steps, hsucc]
  simp [Prog.bind, consoleLog, emit, headerEvents]

/-- One statement without a remote call only appends its events. -/
theorem runStep_silent (E : Env σ) (st : Step) (w : World σ) (resp : Response)
    (h : st.call = none) :
    runStep E st w = (.ok (), { remote := w.remote, trace := w.trace ++ stepEvents st resp }) := by
  cases st <;> simp [Step.call] at h <;>
    simp [runStep, consoleLog, sleep, emit, stepEvents]

/-- The value `safeExecute` returns around a remote call, given the answer. -/
theorem safeExecute_remoteCall (E : Env σ) (c : Call) (em sm : String) (w : World σ) :
    safeExecute (remoteCall E c) em sm w =
      ((match (E.respond w.remote c).1 with
        | .ok json => .ok (.obj json)
        | .error e => if e.code = JsVal.num 409 then .ok .null else .error e),
        { remote := (E.respond w.remote c).2,
          trace := w.trace ++ safeEvents c em sm (E.respond w.remote c).1 }) := by
  rcases hr : E.respond w.remote c with ⟨resp, s1⟩
  rcases resp with json | e
  · simp [safeExecute, remoteCall, Prog.tryCatch, Prog.bind, Prog.pure, bind_def, pure_def,
      consoleLog, emit, safeEvents, hr]
  · by_cases h : e.code = JsVal.num 409
    · simp [safeExecute, remoteCall, Prog.tryCatch, Prog.bind, Prog.pure, bind_def, pure_def,
        consoleLog, emit, safeEvents, hr, h]
    · simp [safeExecute, remoteCall, Prog.tryCatch, Prog.bind, Prog.throw, bind_def,
        consoleError, emit, safeEvents, hr, h]

/-- One statement with a remote call: the remote answers once, the statement
appends its events for that answer and throws the error that answer leads to. -/
theorem runStep_call (E : Env σ) (st : Step) (w : World σ) (c : Call)
    (h : st.call = some c) :
    runStep E st w =
      (resultOf (stepError st (E.respond w.remote c).1),
        { remote := (E.respond w.remote c).2,
          trace := w.trace ++ stepEvents st (E.respond w.remote c).1 }) := by
  cases st <;> simp [Step.call] at h <;> subst h
  · rcases hr : E.respond w.remote _ with ⟨resp, s1⟩
    rcases resp with json | e
    · simp [runStep, bind_def, pure_def, Prog.bind, Prog.pure, safeExecute_remoteCall, hr,
        stepEvents, stepError, resultOf]
    · by_cases h9 : e.code = JsVal.num 409 <;>
        simp [runStep, bind_def, pure_def, Prog.bind, Prog.pure, safeExecute_remoteCall, hr,
          stepEvents, stepError, resultOf, h9]
  · rcases hr : E.respond w.remote _ with ⟨resp, s1⟩
    rcases resp with json | e
    · simp [runStep, bind_def, pure_def, Prog.bind, Prog.pure, safeExecute_remoteCall, hr,
        stepEvents, stepError, resultOf, JsVal.truthy, Response.applied, consoleLog, sleep, emit,
        safeEvents]
    · by_cases h9 : e.code = JsVal.num 409 <;>
        simp [runStep, bind_def, pure_def, Prog.bind, Prog.pure, safeExecute_remoteCall, hr,
          stepEvents, stepError, resultOf, JsVal.truthy, Response.applied, h9]
  · rcases hr : E.respond w.remote _ with ⟨resp, s1⟩
    rcases resp with json | e
    · simp [runStep, bind_def, pure_def, Prog.bind, Prog.pure, Prog.tryCatch,
        safeExecute_remoteCall, hr, stepEvents, stepError, resultOf]
    · by_cases h9 : e.code = JsVal.num 409
      · simp [runStep, bind_def, pure_def, Prog.bind, Prog.pure, Prog.tryCatch,
          safeExecute_remoteCall, hr, stepEvents, stepError, resultOf, h9, JsError.isLimit]
      · by_cases hl : e.code = JsVal.num 403 ∧ e.type = JsVal.str "additional_resource_not_allowed"
        · simp [runStep, bind_def, pure_def, Prog.bind, Prog.pure, Prog.tryCatch, Prog.throw,
            safeExecute_remoteCall, hr, stepEvents, stepError, resultOf, h9, JsError.isLimit, hl,
            consoleLog, emit, safeEvents]
        · simp [runStep, bind_def, pure_def, Prog.bind, Prog.pure, Prog.tryCatch, Prog.throw,
            safeExecute_remoteCall, hr, stepEvents, stepError, resultOf, h9, JsError.isLimit, hl]

/-- A call event of a statement is the call of the statement with the answer. -/
theorem stepEvents_call_mem (st : Step) (resp : Response) (c : Call) (r : Response)
    (h : Event.call c r ∈ stepEvents st resp) : st.call = some c ∧ r = resp := by
  cases st <;> rcases resp with json | e <;>
    simp only [stepEvents, safeEvents, Step.call, Response.applied] at h ⊢ <;>
    (try split at h) <;> (try split at h) <;> simp at h <;>
    (try exact ⟨by rw [h.1], h.2⟩)

/-- Every statement either has a remote call or has none. -/
theorem runStep_cases (E : Env σ) (st : Step) (w : World σ) :
    ∃ resp s1, runStep E st w =
        (resultOf (stepError st resp), { remote := s1, trace := w.trace ++ stepEvents st resp }) ∧
      ∀ c r, Event.call c r ∈ stepEvents st resp → ∃ s, r = (E.respond s c).1 := by
  cases hc : st.call with
  | none =>
    refine ⟨.ok "", w.remote, ?_, ?_⟩
    · rw [runStep_silent E st w (.ok "") hc]
      cases st <;> simp [Step.call] at hc <;> simp [stepError, resultOf]
    · intro c r hmem
      have h := (stepEvents_call_mem st _ c r hmem).1
      rw [hc] at h
      cases h
  | some c =>
    refine ⟨(E.respond w.remote c).1, (E.respond w.remote c).2, runStep_call E st w c hc, ?_⟩
    intro c2 r hmem
    obtain ⟨h1, h2⟩ := stepEvents_call_mem st _ c2 r hmem
    rw [hc] at h1
    cases h1
    exact ⟨w.remote, h2⟩

theorem runSteps_nil (E : Env σ) (w : World σ) : runSteps E [] w = (.ok (), w) := rfl

/-- A list that starts with a statement without a remote call. -/
theorem runSteps_cons_silent (E : Env σ) (st : Step) (rest : List Step) (w : World σ)
    (h : st.call = none) :
    runSteps E (st :: rest) w =
      runSteps E rest (World.mk w.remote (w.trace ++ stepEvents st (.ok ""))) := by
  show Prog.bind (runStep E st) (fun _ => runSteps E rest) w = _
  simp only [Prog.bind, runStep_silent E st w (.ok "") h]

/-- A list that starts with a statement with a remote call, which does not throw. -/
theorem runSteps_cons_call (E : Env σ) (st : Step) (rest : List Step) (w : World σ)
    (c : Call) (h : st.call = some c) (herr : stepError st (E.respond w.remote c).1 = none) :
    runSteps E (st :: rest) w =
      runSteps E rest
        (World.mk (E.respond w.remote c).2 (w.trace ++ stepEvents st (E.respond w.remote c).1)) := by
  show Prog.bind (runStep E st) (fun _ => runSteps E rest) w = _
  simp only [Prog.bind, runStep_call E st w c h, herr, resultOf]

/-- A list that starts with a statement with a remote call, which throws. -/
theorem runSteps_cons_throw (E : Env σ) (st : Step) (rest : List Step) (w : World σ)
    (c : Call) (e : JsError) (h : st.call = some c)
    (herr : stepError st (E.respond w.remote c).1 = some e) :
    runSteps E (st :: rest) w =
      (.error e,
        World.mk (E.respond w.remote c).2 (w.trace ++ stepEvents st (E.respond w.remote c).1)) := by
  show Prog.bind (runStep E st) (fun _ => runSteps E rest) w = _
  simp only [Prog.bind, runStep_call E st w c h, herr, resultOf]

/-- The events of a run of a list of statements have the shape of the list, and
every answer in them is an answer of the remote. -/
theorem runSteps_shape (E : Env σ) (steps : List Step) (w : World σ) :
    ∃ evs, (runSteps E steps w).2.trace = w.trace ++ evs ∧
      Shape steps evs (runSteps E steps w).1 ∧
      ∀ c r, Event.call c r ∈ evs → ∃ s, r = (E.respond s c).1 := by
  induction steps generalizing w with
  | nil => exact ⟨[], by simp [runSteps, forOf, Prog.pure], Shape.nil, by simp⟩
  | cons st rest ih =>
    obtain ⟨resp, s1, hrun, hans⟩ := runStep_cases E st w
    cases herr : stepError st resp with
    | none =>
      obtain ⟨evs, htr, hsh, hans2⟩ := ih { remote := s1, trace := w.trace ++ stepEvents st resp }
      have hstep : runSteps E (st :: rest) w =
          runSteps E rest { remote := s1, trace := w.trace ++ stepEvents st resp } := by
        show Prog.bind (runStep E st) (fun _ => runSteps E rest) w = _
        simp [Prog.bind, hrun, herr, resultOf]
      refine ⟨stepEvents st resp ++ evs, ?_, ?_, ?_⟩
      · rw [hstep, htr, List.append_assoc]
      · rw [hstep]
        exact Shape.cont st resp rest evs _ herr hsh
      · intro c r hmem
        rcases List.mem_append.1 hmem with h | h
        · exact hans c r h
        · exact hans2 c r h
    | some e =>
      have hstep : runSteps E (st :: rest) w =
          (.error e, { remote := s1, trace := w.trace ++ stepEvents st resp }) := by
        show Prog.bind (runStep E st) (fun _ => runSteps E rest) w = _
        simp [Prog.bind, hrun, herr, resultOf]
      refine ⟨stepEvents st resp, ?_, ?_, hans⟩
      · rw [hstep]
      · rw [hstep]
        exact Shape.stop st resp rest e herr

/-- A run of `main`: the header, the events of the statements of the `try`
block, and, when a statement threw, the line of the `catch` block with exit
status 1. -/
theorem main_shape (E : Env σ) (s : σ) :
    ∃ evs r, Shape mainSteps evs r ∧
      (∀ c resp, Event.call c resp ∈ evs → ∃ s1, resp = (E.respond s1 c).1) ∧
      ((r = .ok () ∧ exitStatus E s = .ok 0 ∧ runTrace E s = headerEvents E ++ evs) ∨
       (∃ e, r = .error e ∧ exitStatus E s = .ok 1 ∧
          runTrace E s = headerEvents E ++ evs ++ [.error "\n❌ Setup failed:" (.err e)])) := by
  obtain ⟨evs, htr, hsh, hans⟩ :=
    runSteps_shape E mainSteps { remote := s, trace := headerEvents E }
  refine ⟨evs, _, hsh, hans, ?_⟩
  rcases hrun : runSteps E mainSteps { remote := s, trace := headerEvents E } with ⟨r, w1⟩
  rw [hrun] at htr
  simp only at htr
  cases r with
  | ok u =>
    left
    refine ⟨rfl, ?_, ?_⟩
    · simp [exitStatus, main_eq_steps, World.start, Prog.bind, Prog.tryCatch, Prog.pure, hrun]
    · simp [runTrace, main_eq_steps, World.start, Prog.bind, Prog.tryCatch, Prog.pure, hrun, htr]
  | error e =>
    right
    refine ⟨e, rfl, ?_, ?_⟩
    · simp [exitStatus, main_eq_steps, World.start, Prog.bind, Prog.tryCatch, Prog.pure, hrun,
        consoleError, emit]
    · simp [runTrace, main_eq_steps, World.start, Prog.bind, Prog.tryCatch, Prog.pure, hrun, htr,
        consoleError, emit]

end Steps

/-! ## Facts about one statement -/

section Single

/-- A statement that throws made a call with a fatal outcome and printed the
error line right after it. -/
theorem step_stop (st : Step) (resp : Response) (e : JsError) (hwf : st.wf = true)
    (h : stepError st resp = some e) :
    ∃ c l a, st.call = some c ∧ resp = .error e ∧ Fatal c (.error e) = true ∧
      stepEvents st resp = [.call c (.error e), .error l a] := by
  cases st with
  | say line => cases resp <;> simp [stepError] at h
  | pause ms => cases resp <;> simp [stepError] at h
  | exec c em sm =>
    rcases resp with json | e2 <;> simp [stepError] at h
    obtain ⟨h9, he⟩ := h
    subst he
    simp [Step.wf] at hwf
    exact ⟨c, "❌ " ++ em ++ ":", .val e2.message, rfl, rfl, by simp [Fatal, h9, hwf],
      by simp [stepEvents, safeEvents, h9]⟩
  | execThenPause c em sm line ms =>
    rcases resp with json | e2 <;> simp [stepError] at h
    obtain ⟨h9, he⟩ := h
    subst he
    simp [Step.wf] at hwf
    exact ⟨c, "❌ " ++ em ++ ":", .val e2.message, rfl, rfl, by simp [Fatal, h9, hwf],
      by simp [stepEvents, safeEvents, h9, Response.applied]⟩
  | execTolerant c em sm =>
    rcases resp with json | e2 <;> simp [stepError] at h
    obtain ⟨h9, hl, he⟩ := h
    subst he
    exact ⟨c, "❌ " ++ em ++ ":", .val e2.message, rfl, rfl, by simp [Fatal, h9, hl],
      by simp [stepEvents, safeEvents, h9, hl]⟩

/-- A statement that does not throw made no call with a fatal outcome. -/
theorem step_cont (st : Step) (resp : Response) (hwf : st.wf = true)
    (h : stepError st resp = none) (c : Call) (r : Response)
    (hmem : Event.call c r ∈ stepEvents st resp) : Fatal c r = false := by
  obtain ⟨hc, hr⟩ := stepEvents_call_mem st resp c r hmem
  subst hr
  cases st <;> simp [Step.call] at hc <;> subst hc <;> rcases r with json | e2 <;>
    simp [stepError] at h <;> simp [Fatal, h]
  · simp [Step.wf] at hwf
    intro h9
    by_cases hl : e2.isLimit = true
    · exact ⟨hwf, hl⟩
    · exact absurd (h h9) (by simpa using hl)

/-- The calls among the events of a statement: its own call, once. -/
theorem callsOf_stepEvents (st : Step) (resp : Response) :
    callsOf (stepEvents st resp) = st.call.toList := by
  cases st <;> rcases resp with json | e <;>
    simp only [stepEvents, safeEvents, Step.call, Response.applied] <;>
    (try split) <;> (try split) <;> simp [callsOf]

end Single

/-! ## Facts about traces -/

section Traces

theorem callsOf_append (xs ys : List Event) : callsOf (xs ++ ys) = callsOf xs ++ callsOf ys := by
  induction xs with
  | nil => rfl
  | cons ev xs ih => cases ev <;> simp [callsOf, ih]

theorem outlineOf_append (xs ys : List Event) :
    outlineOf (xs ++ ys) = outlineOf xs ++ outlineOf ys := by
  induction xs with
  | nil => rfl
  | cons ev xs ih => cases ev <;> simp [outlineOf, ih]

theorem mem_callsOf (c : Call) (evs : List Event) :
    c ∈ callsOf evs ↔ ∃ r, Event.call c r ∈ evs := by
  induction evs with
  | nil => simp [callsOf]
  | cons ev evs ih =>
    cases ev with
    | call c2 r2 =>
      simp only [callsOf, List.mem_cons, ih, Event.call.injEq]
      constructor
      · rintro (h | ⟨r, h⟩)
        · exact ⟨r2, Or.inl ⟨h, rfl⟩⟩
        · exact ⟨r, Or.inr h⟩
      · rintro ⟨r, (h | h)⟩
        · exact Or.inl h.1
        · exact Or.inr ⟨r, h⟩
    | wait ms => simp [callsOf, ih]
    | log l => simp [callsOf, ih]
    | error l a => simp [callsOf, ih]

/-- Events without a fatal call in front do not change the check. -/
theorem failFast_append_quiet (xs ys : List Event)
    (h : ∀ c r, Event.call c r ∈ xs → Fatal c r = false) :
    failFast (xs ++ ys) = failFast ys := by
  induction xs with
  | nil => rfl
  | cons ev xs ih =>
    have ih2 := ih (fun c r hm => h c r (List.mem_cons_of_mem _ hm))
    cases ev with
    | call c r =>
      have hf := h c r (List.mem_cons_self _ _)
      simp [failFast, hf, ih2]
    | wait ms => simpa [failFast] using ih2
    | log l => simpa [failFast] using ih2
    | error l a => simpa [failFast] using ih2

/-- Console error lines at the end do not change the check. -/
theorem failFast_append_console (xs ys : List Event) (h : failFast xs = true)
    (hy : ∀ ev ∈ ys, ev.isConsoleError = true) : failFast (xs ++ ys) = true := by
  induction xs with
  | nil =>
    induction ys with
    | nil => rfl
    | cons ev ys ihy =>
      have h1 := hy ev (List.mem_cons_self _ _)
      cases ev <;> simp [Event.isConsoleError] at h1
      simpa [failFast] using ihy (fun ev hm => hy ev (List.mem_cons_of_mem _ hm))
  | cons ev xs ih =>
    cases ev with
    | call c r =>
      by_cases hf : Fatal c r = true
      · have h2 : xs.all Event.isConsoleError = true := by simpa [failFast, hf] using h
        have h3 : ys.all Event.isConsoleError = true := List.all_eq_true.2 hy
        simp [failFast, hf, List.all_append, h2, h3]
      · have h2 : failFast xs = true := by simpa [failFast, hf] using h
        simpa [failFast, hf] using ih h2
    | wait ms => simpa [failFast] using ih (by simpa [failFast] using h)
    | log l => simpa [failFast] using ih (by simpa [failFast] using h)
    | error l a => simpa [failFast] using ih (by simpa [failFast] using h)

/-- The check read at a call of the trace: no call before it had a fatal
outcome, and if its own outcome is fatal only console error lines follow. -/
theorem failFast_split (pre : List Event) (c : Call) (r : Response) (post : List Event)
    (h : failFast (pre ++ Event.call c r :: post) = true) :
    (∀ c2 r2, Event.call c2 r2 ∈ pre → Fatal c2 r2 = false) ∧
      (Fatal c r = true → ∀ ev ∈ post, ev.isConsoleError = true) := by
  induction pre with
  | nil =>
    refine ⟨by simp, ?_⟩
    intro hf
    simp only [List.nil_append, failFast, hf, if_true] at h
    exact List.all_eq_true.1 h
  | cons ev pre ih =>
    cases ev with
    | call c2 r2 =>
      by_cases hf : Fatal c2 r2 = true
      · simp [failFast, hf, List.all_append, Event.isConsoleError] at h
      · have h0 : failFast (pre ++ Event.call c r :: post) = true := by
          simpa [failFast, hf] using h
        obtain ⟨h1, h2⟩ := ih h0
        refine ⟨?_, h2⟩
        intro c3 r3 hm
        rcases List.mem_cons.1 hm with heq | hm2
        · cases heq
          simpa using hf
        · exact h1 c3 r3 hm2
    | wait ms =>
      obtain ⟨h1, h2⟩ := ih (by simpa [failFast] using h)
      exact ⟨fun c3 r3 hm => h1 c3 r3 (by simpa using hm), h2⟩
    | log l =>
      obtain ⟨h1, h2⟩ := ih (by simpa [failFast] using h)
      exact ⟨fun c3 r3 hm => h1 c3 r3 (by simpa using hm), h2⟩
    | error l a =>
      obtain ⟨h1, h2⟩ := ih (by simpa [failFast] using h)
      exact ⟨fun c3 r3 hm => h1 c3 r3 (by simpa using hm), h2⟩

end Traces

/-! ## Facts about the events of a list of statements -/

section Shapes

/-- The trace of a list of statements passes the fail-fast check. -/
theorem shape_failFast {steps : List Step} {evs : List Event} {r : Except JsError Unit}
    (h : Shape steps evs r) : (∀ st ∈ steps, st.wf = true) → failFast evs = true := by
  induction h with
  | nil => intro _; rfl
  | cont st resp rest evs r herr _ ih =>
    intro hwf
    rw [failFast_append_quiet _ _
      (step_cont st resp (hwf st (List.mem_cons_self _ _)) herr)]
    exact ih (fun st2 hm => hwf st2 (List.mem_cons_of_mem _ hm))
  | stop st resp rest e herr =>
    intro hwf
    obtain ⟨c, l, a, _, _, hf, hev⟩ := step_stop st resp e (hwf st (List.mem_cons_self _ _)) herr
    simp [hev, failFast, hf, Event.isConsoleError]

/-- A call with a fatal outcome decides the result: its error is thrown. -/
theorem shape_fatal_result {steps : List Step} {evs : List Event} {r : Except JsError Unit}
    (h : Shape steps evs r) : (∀ st ∈ steps, st.wf = true) →
      ∀ c resp, Event.call c resp ∈ evs → Fatal c resp = true →
        ∃ e, resp = .error e ∧ r = .error e := by
  induction h with
  | nil => intro _ c resp hm; simp at hm
  | cont st resp rest evs r herr _ ih =>
    intro hwf c resp2 hm hf
    rcases List.mem_append.1 hm with h1 | h1
    · have := step_cont st resp (hwf st (List.mem_cons_self _ _)) herr c resp2 h1
      rw [this] at hf
      cases hf
    · exact ih (fun st2 hm2 => hwf st2 (List.mem_cons_of_mem _ hm2)) c resp2 h1 hf
  | stop st resp rest e herr =>
    intro hwf c resp2 hm _
    obtain ⟨c1, l, a, _, _, _, hev⟩ := step_stop st resp e (hwf st (List.mem_cons_self _ _)) herr
    rw [hev] at hm
    simp at hm
    exact ⟨e, hm.2, rfl⟩

/-- A thrown error comes from a call of the trace with a fatal outcome. -/
theorem shape_error_fatal {steps : List Step} {evs : List Event} {r : Except JsError Unit}
    (h : Shape steps evs r) : (∀ st ∈ steps, st.wf = true) →
      ∀ e, r = .error e → ∃ c, Event.call c (.error e) ∈ evs ∧ Fatal c (.error e) = true := by
  induction h with
  | nil => intro _ e he; cases he
  | cont st resp rest evs r _ _ ih =>
    intro hwf e he
    obtain ⟨c, hm, hf⟩ := ih (fun st2 hm2 => hwf st2 (List.mem_cons_of_mem _ hm2)) e he
    exact ⟨c, List.mem_append.2 (Or.inr hm), hf⟩
  | stop st resp rest e herr =>
    intro hwf e2 he
    cases he
    obtain ⟨c, l, a, _, _, hf, hev⟩ := step_stop st resp e (hwf st (List.mem_cons_self _ _)) herr
    exact ⟨c, by simp [hev], hf⟩

/-- The calls of the trace are an initial segment of the calls of the list, the
whole of it when nothing was thrown. -/
theorem shape_calls {steps : List Step} {evs : List Event} {r : Except JsError Unit}
    (h : Shape steps evs r) :
    ∃ rest, stepCalls steps = callsOf evs ++ rest ∧ (r = .ok () → rest = []) := by
  induction h with
  | nil => exact ⟨[], rfl, fun _ => rfl⟩
  | cont st resp rest evs r _ _ ih =>
    obtain ⟨tl, h1, h2⟩ := ih
    refine ⟨tl, ?_, h2⟩
    rw [callsOf_append, callsOf_stepEvents, List.append_assoc, ← h1]
    cases hc : st.call <;> simp [stepCalls, List.filterMap_cons, hc]
  | stop st resp rest e _ =>
    refine ⟨stepCalls rest, ?_, fun he => by cases he⟩
    rw [callsOf_stepEvents]
    cases hc : st.call <;> simp [stepCalls, List.filterMap_cons, hc]

/-- Statements without a remote call never throw. -/
theorem shape_silent {steps : List Step} {evs : List Event} {r : Except JsError Unit}
    (h : Shape steps evs r) : (∀ st ∈ steps, st.call = none) → r = .ok () := by
  induction h with
  | nil => intro _; rfl
  | cont st resp rest evs r _ _ ih =>
    intro hs
    exact ih (fun st2 hm => hs st2 (List.mem_cons_of_mem _ hm))
  | stop st resp rest e herr =>
    intro hs
    have hc := hs st (List.mem_cons_self _ _)
    cases st <;> simp [Step.call] at hc <;> simp [stepError] at herr

theorem quietAfterTolerant_tail (st : Step) (rest : List Step)
    (h : quietAfterTolerant (st :: rest) = true) : quietAfterTolerant rest = true := by
  cases st with
  | execTolerant c em sm =>
    simp only [quietAfterTolerant, List.all_eq_true] at h
    clear c em sm
    induction rest with
    | nil => rfl
    | cons st2 rest ih =>
      have h2 := h st2 (List.mem_cons_self _ _)
      have ih2 := ih (fun x hx => h x (List.mem_cons_of_mem _ hx))
      cases st2 <;> simp [Step.call] at h2 <;> simpa [quietAfterTolerant] using ih2
  | say l => simpa [quietAfterTolerant] using h
  | exec c em sm => simpa [quietAfterTolerant] using h
  | pause ms => simpa [quietAfterTolerant] using h
  | execThenPause c em sm l ms => simpa [quietAfterTolerant] using h

/-- The resource-limit error on the bucket call, in the tolerant statement
form with no call after it, leaves the result a success. -/
theorem shape_tolerated {steps : List Step} {evs : List Event} {r : Except JsError Unit}
    (h : Shape steps evs r) : (∀ st ∈ steps, st.wf = true) → quietAfterTolerant steps = true →
      ∀ c e, Event.call c (.error e) ∈ evs → c.isBucket = true → e.isLimit = true →
        r = .ok () := by
  induction h with
  | nil => intro _ _ c e hm; simp at hm
  | cont st resp rest evs r herr hsh ih =>
    intro hwf hq c e hm hb hl
    rcases List.mem_append.1 hm with h1 | h1
    · obtain ⟨hc, _⟩ := stepEvents_call_mem st resp c _ h1
      have hw := hwf st (List.mem_cons_self _ _)
      cases st with
      | execTolerant c2 em sm =>
        simp only [quietAfterTolerant, List.all_eq_true] at hq
        exact shape_silent hsh (fun st2 hm2 => by simpa using hq st2 hm2)
      | say l => simp [Step.call] at hc
      | pause ms => simp [Step.call] at hc
      | exec c2 em sm =>
        simp [Step.call] at hc
        subst hc
        simp [Step.wf, hb] at hw
      | execThenPause c2 em sm l ms =>
        simp [Step.call] at hc
        subst hc
        simp [Step.wf, hb] at hw
    · exact ih (fun st2 hm2 => hwf st2 (List.mem_cons_of_mem _ hm2))
        (quietAfterTolerant_tail st rest hq) c e h1 hb hl
  | stop st resp rest e herr =>
    intro hwf _ c e2 hm hb hl
    obtain ⟨c1, l, a, _, _, hf, hev⟩ := step_stop st resp e (hwf st (List.mem_cons_self _ _)) herr
    rw [hev] at hm
    simp at hm
    obtain ⟨h1, h2⟩ := hm
    subst h1
    subst h2
    simp [Fatal, hb, hl] at hf

/-- The call of a statement is among its events, with the answer. -/
theorem stepEvents_has_call (st : Step) (resp : Response) (c : Call)
    (h : st.call = some c) : Event.call c resp ∈ stepEvents st resp := by
  cases st <;> simp [Step.call] at h <;> subst h <;> rcases resp with json | e <;>
    simp only [stepEvents, safeEvents] <;> (try split) <;> simp

/-- Calls and delays of one statement whose call, if any, was answered with a
conflict; such a statement does not throw. -/
theorem step_outline_conflict (st : Step) (resp : Response)
    (h : ∀ c r, Event.call c r ∈ stepEvents st resp → r.alreadyPresent = true) :
    outlineOf (stepEvents st resp) = st.outline false ∧ stepError st resp = none := by
  cases hc : st.call with
  | none =>
    cases st <;> simp [Step.call] at hc <;> simp [stepEvents, stepError, Step.outline, outlineOf]
  | some c =>
    have h1 := h c resp (stepEvents_has_call st resp c hc)
    rcases resp with json | e
    · simp [Response.alreadyPresent] at h1
    · have h9 : e.code = JsVal.num 409 := by simpa [Response.alreadyPresent] using h1
      cases st <;> simp [Step.call] at hc <;>
        simp [stepEvents, safeEvents, Response.applied, stepError, Step.outline, outlineOf, h9,
          JsError.isLimit]

/-- When every call of the trace was answered with a conflict, nothing was
thrown and the calls and delays are those of the list with the conditional
delay skipped. -/
theorem shape_outline_conflict {steps : List Step} {evs : List Event}
    {r : Except JsError Unit} (h : Shape steps evs r) :
    (∀ c resp, Event.call c resp ∈ evs → resp.alreadyPresent = true) →
      r = .ok () ∧ outlineOf evs = outlineSteps false steps := by
  induction h with
  | nil => intro _; exact ⟨rfl, rfl⟩
  | cont st resp rest evs r _ _ ih =>
    intro hall
    obtain ⟨h1, h2⟩ := ih (fun c r2 hm => hall c r2 (List.mem_append.2 (Or.inr hm)))
    obtain ⟨h3, _⟩ := step_outline_conflict st resp
      (fun c r2 hm => hall c r2 (List.mem_append.2 (Or.inl hm)))
    exact ⟨h1, by rw [outlineOf_append, h3, h2]; rfl⟩
  | stop st resp rest e herr =>
    intro hall
    obtain ⟨_, h4⟩ := step_outline_conflict st resp hall
    rw [h4] at herr
    cases herr

/-- Calls and delays of a statement whose delay does not depend on the answer. -/
theorem step_outline_plain (st : Step) (resp : Response) (h : st.isConditional = false) :
    outlineOf (stepEvents st resp) = st.outline false := by
  cases st with
  | say l => rfl
  | pause ms => rfl
  | execThenPause c em sm l ms => simp [Step.isConditional] at h
  | exec c em sm =>
    rcases resp with json | e
    · rfl
    · by_cases h9 : e.code = JsVal.num 409 <;>
        simp [stepEvents, safeEvents, Step.outline, outlineOf, h9]
  | execTolerant c em sm =>
    rcases resp with json | e
    · rfl
    · by_cases h9 : e.code = JsVal.num 409 <;> by_cases hl : e.isLimit = true <;>
        simp [stepEvents, safeEvents, Step.outline, outlineOf, h9, hl]

/-- For statements whose delays do not depend on the answers, the calls and
delays of the trace are an initial segment of those of the list, the whole of
it when nothing was thrown. -/
theorem shape_outline_segment {steps : List Step} {evs : List Event}
    {r : Except JsError Unit} (h : Shape steps evs r) :
    (∀ st ∈ steps, st.isConditional = false) →
      ∃ rest, outlineSteps false steps = outlineOf evs ++ rest ∧ (r = .ok () → rest = []) := by
  induction h with
  | nil => intro _; exact ⟨[], rfl, fun _ => rfl⟩
  | cont st resp rest evs r _ _ ih =>
    intro hp
    obtain ⟨tl, h1, h2⟩ := ih (fun st2 hm => hp st2 (List.mem_cons_of_mem _ hm))
    refine ⟨tl, ?_, h2⟩
    rw [outlineOf_append, step_outline_plain st resp (hp st (List.mem_cons_self _ _)),
      List.append_assoc, ← h1]
    rfl
  | stop st resp rest e _ =>
    intro hp
    refine ⟨outlineSteps false rest, ?_, fun he => by cases he⟩
    rw [step_outline_plain st resp (hp st (List.mem_cons_self _ _))]
    rfl

end Shapes

/-! ## Facts about the statements of the script -/

section Plan

theorem mainSteps_wf : ∀ st ∈ mainSteps, st.wf = true := by
  decide

theorem mainSteps_quiet : quietAfterTolerant mainSteps = true := by
  decide

theorem plannedCalls_nodup : plannedCalls.Nodup := by
  decide

theorem plannedCalls_indexOrdered : indexOrdered [] plannedCalls = true := by
  decide

end Plan

/-! ## Runs of `main` -/

section Runs

variable {σ : Type}

/-- A run of `main` in one statement: the trace is the header, the events of
the statements, and console error lines when a statement threw. -/
theorem main_run (E : Env σ) (s : σ) :
    ∃ evs r tl, Shape mainSteps evs r ∧
      (∀ c resp, Event.call c resp ∈ evs → ∃ s1, resp = (E.respond s1 c).1) ∧
      runTrace E s = headerEvents E ++ evs ++ tl ∧
      (∀ ev ∈ tl, ev.isConsoleError = true) ∧
      (r = .ok () → exitStatus E s = .ok 0 ∧ tl = []) ∧
      (∀ e, r = .error e → exitStatus E s = .ok 1 ∧
        tl = [.error "\n❌ Setup failed:" (.err e)]) := by
  obtain ⟨evs, r, hsh, hans, h⟩ := main_shape E s
  rcases h with ⟨hr, hst, htr⟩ | ⟨e, hr, hst, htr⟩
  · refine ⟨evs, r, [], hsh, hans, by simpa using htr, by simp, fun _ => ⟨hst, rfl⟩, ?_⟩
    intro e he
    rw [hr] at he
    cases he
  · refine ⟨evs, r, [.error "\n❌ Setup failed:" (.err e)], hsh, hans, htr,
      by simp [Event.isConsoleError], ?_, ?_⟩
    · intro he
      rw [hr] at he
      cases he
    · intro e2 he
      rw [hr] at he
      cases he
      exact ⟨hst, rfl⟩

/-- A call event of a trace framed by console output lies in the framed part. -/
theorem call_mem_framed (hd evs tl : List Event) (hh : ∀ ev ∈ hd, ev.isConsole = true)
    (ht : ∀ ev ∈ tl, ev.isConsoleError = true) (c : Call) (r : Response) :
    Event.call c r ∈ hd ++ evs ++ tl ↔ Event.call c r ∈ evs := by
  constructor
  · intro h
    rcases List.mem_append.1 h with h1 | h1
    · rcases List.mem_append.1 h1 with h2 | h2
      · have := hh _ h2
        simp [Event.isConsole] at this
      · exact h2
    · have := ht _ h1
      simp [Event.isConsoleError] at this
  · intro h
    exact List.mem_append.2 (Or.inl (List.mem_append.2 (Or.inr h)))

theorem callsOf_console (evs : List Event) (h : ∀ ev ∈ evs, ev.isConsole = true) :
    callsOf evs = [] := by
  induction evs with
  | nil => rfl
  | cons ev evs ih =>
    have h1 := h ev (List.mem_cons_self _ _)
    have h2 := ih (fun x hx => h x (List.mem_cons_of_mem _ hx))
    cases ev <;> simp [Event.isConsole] at h1 <;> simpa [callsOf] using h2

theorem outlineOf_console (evs : List Event) (h : ∀ ev ∈ evs, ev.isConsole = true) :
    outlineOf evs = [] := by
  induction evs with
  | nil => rfl
  | cons ev evs ih =>
    have h1 := h ev (List.mem_cons_self _ _)
    have h2 := ih (fun x hx => h x (List.mem_cons_of_mem _ hx))
    cases ev <;> simp [Event.isConsole] at h1 <;> simpa [outlineOf] using h2

theorem isConsole_of_isConsoleError (ev : Event) (h : ev.isConsoleError = true) :
    ev.isConsole = true := by
  cases ev <;> first | rfl | simp [Event.isConsoleError] at h

theorem headerEvents_console (E : Env σ) : ∀ ev ∈ headerEvents E, ev.isConsole = true := by
  intro ev h
  simp [headerEvents] at h
  rcases h with h | h | h | h <;> subst h <;> rfl

/-- The facts about a run of `main` that the statements below use. -/
theorem main_facts (E : Env σ) (s : σ) :
    ∃ evs r, Shape mainSteps evs r ∧
      (∀ c resp, Event.call c resp ∈ runTrace E s ↔ Event.call c resp ∈ evs) ∧
      (∀ c resp, Event.call c resp ∈ evs → ∃ s1, resp = (E.respond s1 c).1) ∧
      callsOf (runTrace E s) = callsOf evs ∧
      outlineOf (runTrace E s) = outlineOf evs ∧
      failFast (runTrace E s) = true ∧
      (r = .ok () → exitStatus E s = .ok 0) ∧
      (∀ e, r = .error e → exitStatus E s = .ok 1) := by
  obtain ⟨evs, r, tl, hsh, hans, htr, htl, hok, herr⟩ := main_run E s
  have hhd := headerEvents_console E
  have htl2 : ∀ ev ∈ tl, ev.isConsole = true := fun ev h => isConsole_of_isConsoleError ev (htl ev h)
  refine ⟨evs, r, hsh, ?_, hans, ?_, ?_, ?_, fun h => (hok h).1, fun e h => (herr e h).1⟩
  · intro c resp
    rw [htr]
    exact call_mem_framed _ _ _ hhd htl c resp
  · rw [htr, callsOf_append, callsOf_append, callsOf_console _ hhd, callsOf_console _ htl2]
    simp
  · rw [htr, outlineOf_append, outlineOf_append, outlineOf_console _ hhd,
      outlineOf_console _ htl2]
    simp
  · rw [htr]
    apply failFast_append_console _ _ _ htl
    rw [failFast_append_quiet]
    · exact shape_failFast hsh mainSteps_wf
    · intro c r2 hm
      have := hhd _ hm
      simp [Event.isConsole] at this

end Runs

/-! ## The claims -/

section Claims

variable {σ : Type}

/-- An index call inside a list that passes the ordering check has all its
attribute names created by calls before it. -/
theorem indexOrdered_split (p : List Call) (seen : List Call) (t : List Call)
    (db coll key ty : String) (attrs : List String) (orders : Option (List String))
    (h : indexOrdered seen (p ++ Call.createIndex db coll key ty attrs orders :: t) = true) :
    ∀ a ∈ attrs, ∃ c2 ∈ seen ++ p, c2.isAttributeOf coll a = true := by
  induction p generalizing seen with
  | nil =>
    simp only [List.nil_append, indexOrdered, Bool.and_eq_true, List.all_eq_true,
      List.any_eq_true] at h
    intro a ha
    obtain ⟨c2, h1, h2⟩ := h.1 a ha
    exact ⟨c2, by simpa using h1, h2⟩
  | cons x p ih =>
    simp only [List.cons_append, indexOrdered, Bool.and_eq_true] at h
    intro a ha
    obtain ⟨c2, h1, h2⟩ := ih (seen ++ [x]) h.2 a ha
    exact ⟨c2, by simpa using h1, h2⟩

/-- An attribute call whose outcome is not fatal was applied or already present. -/
theorem attribute_not_fatal (coll a : String) (c : Call) (r : Response)
    (hc : c.isAttributeOf coll a = true) (hf : Fatal c r = false) :
    r.applied = true ∨ r.alreadyPresent = true := by
  rcases r with json | e
  · left; rfl
  · right
    have hb : c.isBucket = false := by
      cases c <;> simp [Call.isAttributeOf] at hc <;> rfl
    simpa [Fatal, hb, Response.alreadyPresent] using hf

theorem plannedCalls_indexes :
    ∀ c ∈ plannedCalls, c.isIndex = true → c.summary ∈ declaredIndexes := by
  decide

theorem plannedCalls_summary : plannedCalls.map Call.summary = declaredOrder := by
  decide

theorem plannedCalls_length : plannedCalls.length = 46 := by
  decide

/-- Result of `createStorageBucket`, given the answer to the bucket call. -/
theorem createStorageBucket_result (E : Env σ) (w : World σ) :
    (createStorageBucket E w).1 =
      match (E.respond w.remote bucketCall).1 with
      | .ok _ => .ok ()
      | .error e =>
          if e.code = JsVal.num 409 ∨
              (e.code = JsVal.num 403 ∧ e.type = JsVal.str "additional_resource_not_allowed")
          then .ok () else .error e := by
  rw [createStorageBucket_eq_steps]
  have h1 := runStep_silent E (.say "\n🗄️  Creating storage bucket for learning materials...")
    w (.ok "") rfl
  have h2 := runStep_call E
    (.execTolerant bucketCall "Failed to create storage bucket"
      "Storage bucket created for learning materials")
    { remote := w.remote, trace := w.trace ++
        stepEvents (.say "\n🗄️  Creating storage bucket for learning materials...") (.ok "") }
    bucketCall rfl
  show (Prog.bind (runStep E (.say "\n🗄️  Creating storage bucket for learning materials..."))
    (fun _ => Prog.bind (runStep E (.execTolerant bucketCall "Failed to create storage bucket"
      "Storage bucket created for learning materials")) (fun _ => Prog.pure ())) w).1 = _
  simp only [Prog.bind, h1, h2]
  rcases (E.respond w.remote bucketCall).1 with json | e
  · simp [stepError, resultOf, Prog.pure]
  · by_cases h9 : e.code = JsVal.num 409
    · simp [stepError, resultOf, Prog.pure, h9]
    · by_cases hl : e.code = JsVal.num 403 ∧ e.type = JsVal.str "additional_resource_not_allowed"
      · simp [stepError, resultOf, Prog.pure, h9, hl, JsError.isLimit]
      · simp [stepError, resultOf, h9, hl, JsError.isLimit]

/-- Claim C1: `safeExecute` classifies the outcome of the operation it is given.
If the operation succeeds with result `r`, `safeExecute` returns `r`; if it fails
with an error whose code is 409, `safeExecute` does not fail and returns `null`;
if it fails with any other error, `safeExecute` fails with that same error. -/
theorem safeExecute_classifies (operation : Prog σ JsVal)
    (errorMessage successMessage : String) (w : World σ) :
    (∀ r, (operation w).1 = .ok r →
        (safeExecute operation errorMessage successMessage w).1 = .ok r) ∧
    (∀ e, (operation w).1 = .error e → e.code = JsVal.num 409 →
        (safeExecute operation errorMessage successMessage w).1 = .ok JsVal.null) ∧
    (∀ e, (operation w).1 = .error e → e.code ≠ JsVal.num 409 →
        (safeExecute operation errorMessage successMessage w).1 = .error e) := by
  rcases hop : operation w with ⟨res, w1⟩
  refine ⟨?_, ?_, ?_⟩
  · intro r hr
    simp only at hr
    subst hr
    simp [safeExecute, Prog.tryCatch, Prog.bind, Prog.pure, bind_def, pure_def, consoleLog, emit,
      hop]
  · intro e he h9
    simp only at he
    subst he
    simp [safeExecute, Prog.tryCatch, Prog.bind, Prog.pure, bind_def, pure_def, consoleLog, emit,
      hop, h9]
  · intro e he h9
    simp only at he
    subst he
    simp [safeExecute, Prog.tryCatch, Prog.bind, Prog.throw, bind_def, consoleError, emit,
      hop, h9]

/-- Witness for C1: the three cases at concrete operations, on the accepting
remote, on the conflicting remote, and on an operation that throws code 500. -/
theorem safeExecute_classifies_witness :
    (safeExecute (remoteCall acceptEnv titleCall) "e" "s" (World.start ())).1
        = .ok (.obj "title") ∧
    (safeExecute (remoteCall conflictEnv titleCall) "e" "s" (World.start ())).1
        = .ok JsVal.null ∧
    (safeExecute (Prog.throw serverError : Prog Unit JsVal) "e" "s" (World.start ())).1
        = .error serverError :=
  ⟨(safeExecute_classifies (remoteCall acceptEnv titleCall) "e" "s" (World.start ())).1
      (.obj "title") rfl,
   (safeExecute_classifies (remoteCall conflictEnv titleCall) "e" "s" (World.start ())).2.1
      conflictError rfl rfl,
   (safeExecute_classifies (Prog.throw serverError) "e" "s" (World.start ())).2.2
      serverError rfl (by decide)⟩

/-- The first three statements of the script. -/
theorem mainSteps_head :
    mainSteps =
      .say "\n📦 Creating learning_materials collection..." ::
      .exec learningMaterialsCollectionCall "Failed to create learning_materials collection"
        "Learning materials collection created" ::
      .exec titleCall "Failed to create attribute title" "Attribute title created" ::
      mainSteps.drop 3 := by
  decide

theorem titleCall_not_later : titleCall ∉ stepCalls (mainSteps.drop 3) := by
  decide

/-- Claim C3 (fail-fast): in every run of `main`, if a remote call fails with a
fatal error (code not 409, and not the tolerated resource-limit error of the
bucket call), then only `console.error` lines follow it in the trace (no later
call, no delay, no later function started) and `main` ends with exit status 1.
In particular, when the creation of attribute `title` of `learning_materials`
is fatal, the whole trace after the header is: the banner of
`createLearningMaterialsCollection`, the collection call with its result line,
the `title` call, and the two error lines; no index call is made and no later
function is started. -/
theorem main_fail_fast (E : Env σ) (s : σ) (pre post : List Event) (c : Call) (e : JsError)
    (htrace : runTrace E s = pre ++ Event.call c (.error e) :: post)
    (hfatal : Fatal c (.error e) = true) :
    exitStatus E s = .ok 1 ∧
    (∀ ev ∈ post, ev.isConsoleError = true) ∧
    (c = titleCall →
      ∃ r0 line,
        line ∈ ["✅ Learning materials collection created",
                "ℹ️  Learning materials collection created (already exists)"] ∧
        runTrace E s = headerEvents E ++
          [ .log "\n📦 Creating learning_materials collection...",
            .call learningMaterialsCollectionCall r0,
            .log line,
            .call titleCall (.error e),
            .error "❌ Failed to create attribute title:" (.val e.message),
            .error "\n❌ Setup failed:" (.err e) ]) := by
  obtain ⟨evs, r, tl, hsh, _, htr, htl, _, herr⟩ := main_run E s
  have hmem : Event.call c (.error e) ∈ evs := by
    rw [← call_mem_framed _ evs tl (headerEvents_console E) htl, ← htr, htrace]
    simp
  obtain ⟨e1, he1, hr⟩ := shape_fatal_result hsh mainSteps_wf c _ hmem hfatal
  cases he1
  obtain ⟨hst, htl2⟩ := herr e hr
  have hff : failFast (runTrace E s) = true := by
    rw [htr]
    apply failFast_append_console _ _ _ htl
    rw [failFast_append_quiet]
    · exact shape_failFast hsh mainSteps_wf
    · intro c2 r2 hm
      have := headerEvents_console E _ hm
      simp [Event.isConsole] at this
  rw [htrace] at hff
  refine ⟨hst, (failFast_split _ _ _ _ hff).2 hfatal, ?_⟩
  intro hc
  subst hc
  subst hr
  rw [htr, htl2]
  rw [mainSteps_head] at hsh
  cases hsh with
  | stop st resp rest e2 herr1 => simp [stepError] at herr1
  | cont st resp rest evs1 r herr1 hsh1 =>
    cases hsh1 with
    | stop st2 resp2 rest2 e2 herr2 =>
      exfalso
      rcases List.mem_append.1 hmem with h1 | h1
      · simp [stepEvents] at h1
      · have := (stepEvents_call_mem _ _ _ _ h1).1
        simp [Step.call, learningMaterialsCollectionCall, titleCall] at this
    | cont st2 resp2 rest2 evs2 r2 herr2 hsh2 =>
      cases hsh2 with
      | cont st3 resp3 rest3 evs3 r3 herr3 hsh3 =>
        exfalso
        rcases List.mem_append.1 hmem with h1 | h1
        · simp [stepEvents] at h1
        · rcases List.mem_append.1 h1 with h2 | h2
          · have := (stepEvents_call_mem _ _ _ _ h2).1
            simp [Step.call, learningMaterialsCollectionCall, titleCall] at this
          · rcases List.mem_append.1 h2 with h3 | h3
            · have := step_cont _ resp3 (by decide) herr3 _ _ h3
              rw [this] at hfatal
              cases hfatal
            · obtain ⟨rest, hcalls, _⟩ := shape_calls hsh3
              have hin : titleCall ∈ callsOf evs3 := (mem_callsOf _ _).2 ⟨_, h3⟩
              exact titleCall_not_later (by rw [hcalls]; exact List.mem_append.2 (Or.inl hin))
      | stop st3 resp3 rest3 e3 herr3 =>
        rcases resp3 with json | e4
        · simp [stepError] at herr3
        · simp only [stepError] at herr3
          by_cases h9 : e4.code = JsVal.num 409
          · simp [h9] at herr3
          · simp only [h9, if_false, Option.some.injEq] at herr3
            subst herr3
            rcases resp2 with json2 | e2
            · refine ⟨.ok json2, "✅ Learning materials collection created", by simp, ?_⟩
              simp [stepEvents, safeEvents, h9]
            · by_cases h92 : e2.code = JsVal.num 409
              · refine ⟨.error e2,
                  "ℹ️  Learning materials collection created (already exists)", by simp, ?_⟩
                simp [stepEvents, safeEvents, h9, h92]
              · simp [stepError, h92] at herr2

/-- Witness for C3: on the remote that rejects the `title` attribute with code
500, the run stops right there with exit status 1. -/
theorem main_fail_fast_witness :
    runTrace titleFailEnv () =
      (headerEvents titleFailEnv ++
        [ .log "\n📦 Creating learning_materials collection...",
          .call learningMaterialsCollectionCall (.ok ""),
          .log "✅ Learning materials collection created" ]) ++
      Event.call titleCall (.error serverError) ::
        [ .error "❌ Failed to create attribute title:" (.val serverError.message),
          .error "\n❌ Setup failed:" (.err serverError) ] ∧
    Fatal titleCall (.error serverError) = true ∧
    exitStatus titleFailEnv () = .ok 1 :=
  ⟨by rfl, by decide,
    (main_fail_fast titleFailEnv ()
      (headerEvents titleFailEnv ++
        [ .log "\n📦 Creating learning_materials collection...",
          .call learningMaterialsCollectionCall (.ok ""),
          .log "✅ Learning materials collection created" ])
      [ .error "❌ Failed to create attribute title:" (.val serverError.message),
        .error "\n❌ Setup failed:" (.err serverError) ]
      titleCall serverError (by rfl) (by decide)).1⟩

/-- Claim C5 (ordering invariant): in every run of `main`, at the moment a
`createIndex` call is issued for a collection, every name in its attribute list
has been the subject of an earlier attribute-creation call of the same run, for
the same collection, whose result was `Applied` or `AlreadyPresent`.  The index
is one of the ten indexes of the plan. -/
theorem main_index_after_attributes (E : Env σ) (s : σ) (pre post : List Event)
    (db coll key ty : String) (attrs : List String) (orders : Option (List String))
    (r : Response)
    (htrace : runTrace E s =
      pre ++ Event.call (.createIndex db coll key ty attrs orders) r :: post) :
    (∀ a ∈ attrs, ∃ c2 r2, Event.call c2 r2 ∈ pre ∧ c2.isAttributeOf coll a = true ∧
        (r2.applied = true ∨ r2.alreadyPresent = true)) ∧
    ("index", coll, key) ∈ declaredIndexes := by
  obtain ⟨evs, r0, hsh, _, _, hcalls, _, hff, _, _⟩ := main_facts E s
  obtain ⟨rest, hplan, _⟩ := shape_calls hsh
  have hsplit : plannedCalls =
      callsOf pre ++ Call.createIndex db coll key ty attrs orders ::
        (callsOf post ++ rest) := by
    show stepCalls mainSteps = _
    rw [hplan, ← hcalls, htrace, callsOf_append]
    simp [callsOf]
  rw [htrace] at hff
  obtain ⟨hquiet, _⟩ := failFast_split _ _ _ _ hff
  constructor
  · intro a ha
    have hord := plannedCalls_indexOrdered
    rw [hsplit] at hord
    obtain ⟨c2, hc2, hattr⟩ := indexOrdered_split _ [] _ db coll key ty attrs orders hord a ha
    obtain ⟨r2, hr2⟩ := (mem_callsOf c2 pre).1 (by simpa using hc2)
    exact ⟨c2, r2, hr2, hattr, attribute_not_fatal coll a c2 r2 hattr (hquiet c2 r2 hr2)⟩
  · have hin : Call.createIndex db coll key ty attrs orders ∈ plannedCalls := by
      rw [hsplit]
      simp
    exact plannedCalls_indexes _ hin rfl

/-- Witness for C5: on the accepting remote the index `title_search` is the
40th event of the run, after the creation of `title`. -/
theorem main_index_after_attributes_witness :
    runTrace acceptEnv () =
      (runTrace acceptEnv ()).take 39 ++
        Event.call (.createIndex "quran_gate_db" "learning_materials" "title_search" "fulltext"
          ["title"] none) (.ok "title_search") :: (runTrace acceptEnv ()).drop 40 ∧
    ∃ c2 r2, Event.call c2 r2 ∈ (runTrace acceptEnv ()).take 39 ∧
      c2.isAttributeOf "learning_materials" "title" = true ∧
      (r2.applied = true ∨ r2.alreadyPresent = true) :=
  ⟨by decide!,
    (main_index_after_attributes acceptEnv () ((runTrace acceptEnv ()).take 39)
      ((runTrace acceptEnv ()).drop 40) "quran_gate_db" "learning_materials" "title_search"
      "fulltext" ["title"] none (.ok "title_search") (by decide!)).1 "title"
      (List.mem_singleton.2 rfl)⟩

/-- Claim C9 (declared order, one attempt each): in every run of `main` in which
every call is answered `Applied` or `AlreadyPresent`, the remote calls issued
are exactly the 46 calls of the declared order, each once: the collection
`learning_materials`, its 16 attributes, its 6 indexes, the collection
`session_reports`, its 14 attributes, its 3 indexes, `users.linkedStudentId`,
`students.userId`, the index `students.userId_index`,
`class_sessions.enteredAt` and the bucket. -/
theorem main_declared_order (E : Env σ) (s : σ)
    (h : ∀ c r, Event.call c r ∈ runTrace E s → r.applied = true ∨ r.alreadyPresent = true) :
    (callsOf (runTrace E s)).map Call.summary = declaredOrder ∧
    callsOf (runTrace E s) = plannedCalls ∧
    (callsOf (runTrace E s)).length = 46 ∧
    (callsOf (runTrace E s)).Nodup := by
  obtain ⟨evs, r0, hsh, hmem, _, hcalls, _, _, _, _⟩ := main_facts E s
  have hok : r0 = .ok () := by
    rcases r0 with e | u
    · obtain ⟨c, hc, hf⟩ := shape_error_fatal hsh mainSteps_wf e rfl
      rcases h c _ ((hmem c _).2 hc) with h1 | h1
      · simp [Response.applied] at h1
      · simp [Response.alreadyPresent] at h1
        simp [Fatal, h1] at hf
    · rfl
  obtain ⟨rest, hplan, hrest⟩ := shape_calls hsh
  have hall : callsOf (runTrace E s) = plannedCalls := by
    show _ = stepCalls mainSteps
    rw [hplan, hrest hok, hcalls]
    simp
  rw [hall]
  exact ⟨plannedCalls_summary, rfl, plannedCalls_length, plannedCalls_nodup⟩

/-- Witness for C9: on the accepting remote every call is `Applied` and the 46
calls are issued in the declared order. -/
theorem main_declared_order_witness :
    (∀ c r, Event.call c r ∈ runTrace acceptEnv () →
      r.applied = true ∨ r.alreadyPresent = true) ∧
    (callsOf (runTrace acceptEnv ())).map Call.summary = declaredOrder :=
  have hacc : ∀ c r, Event.call c r ∈ runTrace acceptEnv () →
      r.applied = true ∨ r.alreadyPresent = true := by
    intro c r hm
    obtain ⟨evs, r0, _, hmem, hans, _⟩ := main_facts acceptEnv ()
    obtain ⟨s1, hs1⟩ := hans c r ((hmem c r).1 hm)
    left
    rw [hs1]
    rfl
  ⟨hacc, (main_declared_order acceptEnv () hacc).1⟩

/-- Claim C6 (bucket tolerance): when `storage.createBucket` fails with the
resource-limit error (code 403 and type `additional_resource_not_allowed`) in a
run of `main`, which means every earlier step succeeded, `main` ends with exit
status 0; and `createStorageBucket` itself completes without failing whenever
the bucket call is answered with that error. -/
theorem bucket_tolerance (E : Env σ) (s : σ) (e : JsError)
    (hcall : Event.call bucketCall (.error e) ∈ runTrace E s)
    (hcode : e.code = JsVal.num 403)
    (htype : e.type = JsVal.str "additional_resource_not_allowed") :
    exitStatus E s = .ok 0 ∧
    (∀ w : World σ, (E.respond w.remote bucketCall).1 = .error e →
      (createStorageBucket E w).1 = .ok ()) := by
  obtain ⟨evs, r0, hsh, hmem, _, _, _, _, hok, _⟩ := main_facts E s
  constructor
  · apply hok
    exact shape_tolerated hsh mainSteps_wf mainSteps_quiet bucketCall e
      ((hmem _ _).1 hcall) rfl (by simp [JsError.isLimit, hcode, htype])
  · intro w hw
    rw [createStorageBucket_result, hw]
    simp [hcode, htype]

/-- Witness for C6: on the remote that rejects the bucket with the
resource-limit error and accepts the rest, `main` ends with exit status 0. -/
theorem bucket_tolerance_witness :
    Event.call bucketCall (.error limitError) ∈ runTrace bucketLimitEnv () ∧
    exitStatus bucketLimitEnv () = .ok 0 :=
  ⟨by decide!, (bucket_tolerance bucketLimitEnv () limitError (by decide!) rfl rfl).1⟩

/-- Claim C7 (resource-limit asymmetry): in every step other than bucket
creation an error with code 403 and type `additional_resource_not_allowed` is
fatal: `safeExecute` rethrows it and `main` ends with exit status 1.  Within
the bucket step an error is tolerated only if its code is 409 or it has both
code 403 and that type; every other error is rethrown unchanged. -/
theorem limit_asymmetry (E : Env σ) :
    (∀ s c e, Event.call c (.error e) ∈ runTrace E s → c.isBucket = false →
      e.isLimit = true → exitStatus E s = .ok 1) ∧
    (∀ c em sm (w : World σ) e, (E.respond w.remote c).1 = .error e → e.isLimit = true →
      (safeExecute (remoteCall E c) em sm w).1 = .error e) ∧
    (∀ (w : World σ) e, (E.respond w.remote bucketCall).1 = .error e →
      (createStorageBucket E w).1 =
        if e.code = JsVal.num 409 ∨
            (e.code = JsVal.num 403 ∧ e.type = JsVal.str "additional_resource_not_allowed")
        then .ok () else .error e) := by
  refine ⟨?_, ?_, ?_⟩
  · intro s c e hcall hb hl
    obtain ⟨evs, r0, hsh, hmem, _, _, _, _, _, herr⟩ := main_facts E s
    have hl2 : e.code = JsVal.num 403 ∧ e.type = JsVal.str "additional_resource_not_allowed" := by
      simpa [JsError.isLimit] using hl
    have hf : Fatal c (.error e) = true := by
      simp [Fatal, hb, hl2.1]
    obtain ⟨e1, he1, hr⟩ := shape_fatal_result hsh mainSteps_wf c _ ((hmem _ _).1 hcall) hf
    exact herr e1 hr
  · intro c em sm w e hresp hl
    have hl2 : e.code = JsVal.num 403 ∧ e.type = JsVal.str "additional_resource_not_allowed" := by
      simpa [JsError.isLimit] using hl
    rw [safeExecute_remoteCall, hresp]
    simp [hl2.1]
  · intro w e hresp
    rw [createStorageBucket_result, hresp]

/-- Witness for C7: the resource-limit error on the attribute `title` ends the
run with exit status 1, `safeExecute` rethrows it, and the bucket step rethrows
an error of code 500. -/
theorem limit_asymmetry_witness :
    Event.call titleCall (.error limitError) ∈ runTrace titleLimitEnv () ∧
    exitStatus titleLimitEnv () = .ok 1 ∧
    (safeExecute (remoteCall titleLimitEnv titleCall) "e" "s" (World.start ())).1
      = .error limitError ∧
    (createStorageBucket (Env.mk "" "" (fun _ _ => (Response.error serverError, ())))
      (World.start ())).1 = .error serverError :=
  ⟨by decide!,
   (limit_asymmetry titleLimitEnv).1 () titleCall limitError (by decide!) rfl rfl,
   (limit_asymmetry titleLimitEnv).2.1 titleCall "e" "s" (World.start ()) limitError rfl rfl,
   (limit_asymmetry (Env.mk "" "" (fun _ _ => (Response.error serverError, ())))).2.2
     (World.start ()) serverError rfl⟩

/-- Claim C10 (standalone addition with conditional wait): in
`updateStudentsCollection`, when the creation of `students.userId` is
`Applied` the 3000 ms wait is invoked exactly once and then `createIndex` for
`userId_index` is attempted once; when it is `AlreadyPresent` (code 409) the
wait is not invoked and the index is attempted once; when it is fatal neither
the wait nor the index creation happens and the error is thrown. -/
theorem updateStudents_conditional_wait (E : Env σ) (w : World σ) :
    ∃ evs, (updateStudentsCollection E w).2.trace = w.trace ++ evs ∧
      match (E.respond w.remote userIdCall).1 with
      | .ok json =>
          effectsOf evs =
            [ .call userIdCall (.ok json), .wait 3000,
              .call userIdIndexCall
                (E.respond (E.respond w.remote userIdCall).2 userIdIndexCall).1 ]
      | .error e =>
          if e.code = JsVal.num 409 then
            effectsOf evs =
              [ .call userIdCall (.error e),
                .call userIdIndexCall
                  (E.respond (E.respond w.remote userIdCall).2 userIdIndexCall).1 ]
          else
            effectsOf evs = [ .call userIdCall (.error e) ] ∧
            (updateStudentsCollection E w).1 = .error e := by
  rw [updateStudentsCollection_eq_steps]
  have hs : studentsSteps = [studentsBannerStep, studentsAttrStep, studentsIndexStep] := rfl
  rw [hs]
  rw [runSteps_cons_silent E studentsBannerStep [studentsAttrStep, studentsIndexStep] w rfl]
  cases herr1 : stepError studentsAttrStep (E.respond w.remote userIdCall).1 with
  | some e1 =>
    rw [runSteps_cons_throw E studentsAttrStep [studentsIndexStep]
      (World.mk w.remote (w.trace ++ stepEvents studentsBannerStep (.ok ""))) userIdCall e1 rfl
      herr1]
    refine ⟨_, by rw [List.append_assoc], ?_⟩
    generalize E.respond w.remote userIdCall = p1 at herr1 ⊢
    rcases p1 with ⟨resp, s1⟩
    rcases resp with json | e
    · simp [studentsAttrStep, stepError] at herr1
    · by_cases h9 : e.code = JsVal.num 409
      · simp [studentsAttrStep, stepError, h9] at herr1
      · simp [studentsAttrStep, stepError, h9] at herr1
        subst herr1
        simp [effectsOf, studentsBannerStep, studentsAttrStep, stepEvents, safeEvents,
          Event.isConsole, Response.applied, h9]
  | none =>
    rw [runSteps_cons_call E studentsAttrStep [studentsIndexStep]
      (World.mk w.remote (w.trace ++ stepEvents studentsBannerStep (.ok ""))) userIdCall rfl
      herr1]
    have htail : ∀ w2 : World σ, ∃ evs2,
        (runSteps E [studentsIndexStep] w2).2.trace = w2.trace ++ evs2 ∧
        effectsOf evs2 = [.call userIdIndexCall (E.respond w2.remote userIdIndexCall).1] := by
      intro w2
      cases herr2 : stepError studentsIndexStep (E.respond w2.remote userIdIndexCall).1 with
      | some e2 =>
        rw [runSteps_cons_throw E studentsIndexStep [] w2 userIdIndexCall e2 rfl herr2]
        refine ⟨_, rfl, ?_⟩
        rcases (E.respond w2.remote userIdIndexCall).1 with json2 | e3
        · simp [effectsOf, studentsIndexStep, stepEvents, safeEvents, Event.isConsole]
        · by_cases h92 : e3.code = JsVal.num 409 <;>
            simp [effectsOf, studentsIndexStep, stepEvents, safeEvents, Event.isConsole, h92]
      | none =>
        rw [runSteps_cons_call E studentsIndexStep [] w2 userIdIndexCall rfl herr2, runSteps_nil]
        refine ⟨_, rfl, ?_⟩
        rcases (E.respond w2.remote userIdIndexCall).1 with json2 | e3
        · simp [effectsOf, studentsIndexStep, stepEvents, safeEvents, Event.isConsole]
        · by_cases h92 : e3.code = JsVal.num 409 <;>
            simp [effectsOf, studentsIndexStep, stepEvents, safeEvents, Event.isConsole, h92]
    obtain ⟨evs2, ht1, ht2⟩ := htail
      (World.mk (E.respond w.remote userIdCall).2
        (w.trace ++ stepEvents studentsBannerStep (.ok "") ++
          stepEvents studentsAttrStep (E.respond w.remote userIdCall).1))
    refine ⟨stepEvents studentsBannerStep (.ok "") ++
      (stepEvents studentsAttrStep (E.respond w.remote userIdCall).1 ++ evs2), ?_, ?_⟩
    · rw [ht1]
      simp only [List.append_assoc]
    · have heff : ∀ xs ys : List Event, effectsOf (xs ++ ys) = effectsOf xs ++ effectsOf ys :=
        fun xs ys => List.filter_append _ _
      rw [heff, heff, ht2]
      generalize E.respond w.remote userIdCall = p1 at herr1 ⊢
      rcases p1 with ⟨resp, s1⟩
      rcases resp with json | e
      · simp [effectsOf, studentsBannerStep, studentsAttrStep, stepEvents, safeEvents,
          Event.isConsole, Response.applied]
      · by_cases h9 : e.code = JsVal.num 409
        · simp [effectsOf, studentsBannerStep, studentsAttrStep, stepEvents, safeEvents,
            Event.isConsole, Response.applied, h9]
        · simp [studentsAttrStep, stepError, h9] at herr1

theorem waitsOf_eq_outline (evs : List Event) :
    waitsOf evs = (outlineOf evs).filterMap Sum.getRight? := by
  induction evs with
  | nil => rfl
  | cons ev evs ih => cases ev <;> simp [waitsOf, outlineOf, ih]

theorem outline_conflict_main :
    outlineSteps false mainSteps =
      (plannedCalls.take 38).map Sum.inl ++ Sum.inr 3000 :: (plannedCalls.drop 38).map Sum.inl := by
  decide!

/-- Counterexample to C8 as stated: on the remote that answers every call with
the conflict error (code 409) the run ends with exit status 0, and the fixed
delay is executed. -/
theorem rerun_wait_counterexample :
    (∀ c r, Event.call c r ∈ runTrace conflictEnv () → r.alreadyPresent = true) ∧
    exitStatus conflictEnv () = .ok 0 ∧
    ¬ (∀ ms, Event.wait ms ∉ runTrace conflictEnv ()) := by
  obtain ⟨evs, r0, hsh, hmem, hans, _, _, _, hok, _⟩ := main_facts conflictEnv ()
  have hall : ∀ c r, Event.call c r ∈ evs → r.alreadyPresent = true := by
    intro c r hm
    obtain ⟨s1, hs1⟩ := hans c r hm
    rw [hs1]
    rfl
  exact ⟨fun c r hm => hall c r ((hmem c r).1 hm), hok (shape_outline_conflict hsh hall).1,
    fun h => h 3000 (by decide!)⟩

/-- Claim C8, amended: in every run of `main` in which every remote create call
returns `AlreadyPresent` (code 409), `main` ends with exit status 0 and the
fixed delay is executed exactly once, 3000 ms, namely the unconditional delay
of `createSessionReportsCollection`, after the 38th call (`updatedAt` of
`session_reports`) and before the 39th (`sessionId_index`); no delay is
executed in `createLearningMaterialsCollection` or `updateStudentsCollection`. -/
theorem rerun_waits_once (E : Env σ) (s : σ)
    (h : ∀ c r, Event.call c r ∈ runTrace E s → r.alreadyPresent = true) :
    exitStatus E s = .ok 0 ∧
    waitsOf (runTrace E s) = [3000] ∧
    outlineOf (runTrace E s) =
      (plannedCalls.take 38).map Sum.inl ++ Sum.inr 3000 :: (plannedCalls.drop 38).map Sum.inl ∧
    (plannedCalls.map Call.summary)[37]? = some ("datetime", "session_reports", "updatedAt") ∧
    (plannedCalls.map Call.summary)[38]? = some ("index", "session_reports", "sessionId_index") := by
  obtain ⟨evs, r0, hsh, hmem, _, _, hout, _, hok, _⟩ := main_facts E s
  obtain ⟨hr, ho⟩ := shape_outline_conflict hsh (fun c r hm => h c r ((hmem c r).2 hm))
  have hout2 : outlineOf (runTrace E s) =
      (plannedCalls.take 38).map Sum.inl ++ Sum.inr 3000 ::
        (plannedCalls.drop 38).map Sum.inl := by
    rw [hout, ho, outline_conflict_main]
  refine ⟨hok hr, ?_, hout2, by decide!, by decide!⟩
  have hz : ∀ l : List Call,
      (l.map (Sum.inl : Call → Call ⊕ Nat)).filterMap Sum.getRight? = [] := by
    intro l
    induction l with
    | nil => rfl
    | cons c l ih => simp
  have h1 : ∀ l : List (Call ⊕ Nat),
      (Sum.inr 3000 :: l).filterMap Sum.getRight? = 3000 :: l.filterMap Sum.getRight? :=
    fun l => rfl
  rw [waitsOf_eq_outline, hout2, List.filterMap_append, hz, h1, hz]
  rfl

/-- Witness for the amended C8: the remote that answers every call with code 409. -/
theorem rerun_waits_once_witness :
    (∀ c r, Event.call c r ∈ runTrace conflictEnv () → r.alreadyPresent = true) ∧
    exitStatus conflictEnv () = .ok 0 ∧
    waitsOf (runTrace conflictEnv ()) = [3000] :=
  have hall : ∀ c r, Event.call c r ∈ runTrace conflictEnv () → r.alreadyPresent = true := by
    intro c r hm
    obtain ⟨evs, r0, _, hmem, hans, _⟩ := main_facts conflictEnv ()
    obtain ⟨s1, hs1⟩ := hans c r ((hmem c r).1 hm)
    rw [hs1]
    rfl
  ⟨hall, (rerun_waits_once conflictEnv () hall).1, (rerun_waits_once conflictEnv () hall).2.1⟩

theorem learningMaterials_outline :
    outlineSteps false learningMaterialsSteps = (plannedCalls.take 23).map Sum.inl ∧
    (∀ st ∈ learningMaterialsSteps, st.isConditional = false) := by
  decide!

theorem sessionReports_outline_steps :
    outlineSteps false sessionReportsSteps =
      ((plannedCalls.drop 23).take 15).map Sum.inl ++
        Sum.inr 3000 :: ((plannedCalls.drop 38).take 3).map Sum.inl ∧
    (∀ st ∈ sessionReportsSteps, st.isConditional = false) := by
  decide!

/-- In every run of `createSessionReportsCollection` the calls and delays are an
initial segment of: the collection and its 14 attributes, the delay of 3000 ms,
the three indexes; the whole of it when the function returns normally. -/
theorem sessionReports_waits_once (E : Env σ) (w : World σ) :
    ∃ evs rest, (createSessionReportsCollection E w).2.trace = w.trace ++ evs ∧
      ((plannedCalls.drop 23).take 15).map Sum.inl ++
        Sum.inr 3000 :: ((plannedCalls.drop 38).take 3).map Sum.inl = outlineOf evs ++ rest ∧
      ((createSessionReportsCollection E w).1 = .ok () → rest = []) := by
  rw [createSessionReportsCollection_eq_steps]
  obtain ⟨evs, htr, hsh, _⟩ := runSteps_shape E sessionReportsSteps w
  obtain ⟨rest, h1, h2⟩ := shape_outline_segment hsh sessionReports_outline_steps.2
  exact ⟨evs, rest, htr, by rw [← h1, sessionReports_outline_steps.1], h2⟩

/-- Claim C4 at its failing input: on a fresh target, where every call of
`createLearningMaterialsCollection` is `Applied`, the function issues its
collection call, its 16 attribute calls and its 6 index calls with no delay:
`createIndex` for `title_search` directly follows the creation of `updatedAt`.
And in every run, on every remote, the calls and delays of the function are an
initial segment of those 23 calls: it never executes a delay. -/
theorem learningMaterials_no_wait :
    ((answersOf (createLearningMaterialsCollection (schemaEnv "" "")
        (World.start freshTarget)).2.trace).all Response.applied = true ∧
    outlineOf (createLearningMaterialsCollection (schemaEnv "" "")
        (World.start freshTarget)).2.trace = (plannedCalls.take 23).map Sum.inl ∧
    waitsOf (createLearningMaterialsCollection (schemaEnv "" "")
        (World.start freshTarget)).2.trace = [] ∧
    ((plannedCalls.take 23).map Call.summary)[16]? =
      some ("datetime", "learning_materials", "updatedAt") ∧
    ((plannedCalls.take 23).map Call.summary)[17]? =
      some ("index", "learning_materials", "title_search")) ∧
    (∀ (τ : Type) (E : Env τ) (w : World τ),
      ∃ evs rest, (createLearningMaterialsCollection E w).2.trace = w.trace ++ evs ∧
        (plannedCalls.take 23).map Sum.inl = outlineOf evs ++ rest) := by
  refine ⟨by decide!, ?_⟩
  intro τ E w
  rw [createLearningMaterialsCollection_eq_steps]
  obtain ⟨evs, htr, hsh, _⟩ := runSteps_shape E learningMaterialsSteps w
  obtain ⟨rest, h1, _⟩ := shape_outline_segment hsh learningMaterials_outline.2
  exact ⟨evs, rest, htr, by rw [← h1, learningMaterials_outline.1]⟩

theorem stepCalls_cons_none (st : Step) (rest : List Step) (h : st.call = none) :
    stepCalls (st :: rest) = stepCalls rest := by
  simp [stepCalls, List.filterMap_cons, h]

theorem stepCalls_cons_some (st : Step) (rest : List Step) (c : Call) (h : st.call = some c) :
    stepCalls (st :: rest) = c :: stepCalls rest := by
  simp [stepCalls, List.filterMap_cons, h]

/-- The create-if-absent remote never makes a statement throw. -/
theorem schema_no_throw (st : Step) (s : Schema) (c : Call) :
    stepError st (Schema.respond s c).1 = none := by
  unfold Schema.respond
  split <;> cases st <;> simp [stepError, conflictError]

/-- On the create-if-absent remote a list of statements runs to its end, and
the schema afterwards is the schema after its calls. -/
theorem schema_run (ep pr : String) (steps : List Step) (w : World Schema) :
    (runSteps (schemaEnv ep pr) steps w).1 = .ok () ∧
    (runSteps (schemaEnv ep pr) steps w).2.remote =
      (stepCalls steps).foldl Schema.after w.remote := by
  induction steps generalizing w with
  | nil => exact ⟨rfl, rfl⟩
  | cons st rest ih =>
    cases hc : st.call with
    | none =>
      rw [runSteps_cons_silent _ st rest w hc]
      have := ih (World.mk w.remote (w.trace ++ stepEvents st (.ok "")))
      simpa [stepCalls, List.filterMap_cons, hc] using this
    | some c =>
      rw [runSteps_cons_call _ st rest w c hc (schema_no_throw st w.remote c)]
      have := ih (World.mk (Schema.respond w.remote c).2
        (w.trace ++ stepEvents st (Schema.respond w.remote c).1))
      simpa [stepCalls, List.filterMap_cons, hc, Schema.after, schemaEnv] using this

/-- On the create-if-absent remote, a list of statements whose objects are all
present leaves the schema unchanged and gets the conflict error on every call. -/
theorem schema_rerun (ep pr : String) (steps : List Step) (w : World Schema)
    (h : ∀ c ∈ stepCalls steps, w.remote.has c = true) :
    (runSteps (schemaEnv ep pr) steps w).2.remote = w.remote ∧
    ∃ evs, (runSteps (schemaEnv ep pr) steps w).2.trace = w.trace ++ evs ∧
      ∀ c r, Event.call c r ∈ evs → r = .error conflictError := by
  induction steps generalizing w with
  | nil => exact ⟨rfl, [], by simp [runSteps_nil], by simp⟩
  | cons st rest ih =>
    cases hc : st.call with
    | none =>
      rw [runSteps_cons_silent _ st rest w hc]
      obtain ⟨h1, evs, h2, h3⟩ := ih (World.mk w.remote (w.trace ++ stepEvents st (.ok "")))
        (fun c hm => h c (by rw [stepCalls_cons_none st rest hc]; exact hm))
      refine ⟨h1, stepEvents st (.ok "") ++ evs, by rw [h2, List.append_assoc], ?_⟩
      intro c r hm
      rcases List.mem_append.1 hm with hm1 | hm1
      · have := (stepEvents_call_mem st _ c r hm1).1
        rw [hc] at this
        cases this
      · exact h3 c r hm1
    | some c =>
      have hhas : w.remote.has c = true :=
        h c (by rw [stepCalls_cons_some st rest c hc]; exact List.mem_cons_self _ _)
      have hresp : (schemaEnv ep pr).respond w.remote c = (.error conflictError, w.remote) := by
        simp [schemaEnv, Schema.respond, hhas]
      rw [runSteps_cons_call _ st rest w c hc (schema_no_throw st w.remote c), hresp]
      obtain ⟨h1, evs, h2, h3⟩ := ih
        (World.mk w.remote (w.trace ++ stepEvents st (.error conflictError)))
        (fun c2 hm => h c2 (by
          rw [stepCalls_cons_some st rest c hc]; exact List.mem_cons_of_mem _ hm))
      refine ⟨h1, stepEvents st (.error conflictError) ++ evs,
        by rw [h2, List.append_assoc], ?_⟩
      intro c2 r hm
      rcases List.mem_append.1 hm with hm1 | hm1
      · exact (stepEvents_call_mem st _ c2 r hm1).2
      · exact h3 c2 r hm1

/-- The run of `main` read off the run of its statements. -/
theorem main_unfold (E : Env σ) (s : σ) :
    finalRemote E s = (runSteps E mainSteps (World.mk s (headerEvents E))).2.remote ∧
    ((runSteps E mainSteps (World.mk s (headerEvents E))).1 = .ok () →
      exitStatus E s = .ok 0 ∧
      runTrace E s = (runSteps E mainSteps (World.mk s (headerEvents E))).2.trace) := by
  rcases hrun : runSteps E mainSteps (World.mk s (headerEvents E)) with ⟨r, w1⟩
  cases r with
  | ok u =>
    refine ⟨?_, fun _ => ⟨?_, ?_⟩⟩
    · simp [finalRemote, main_eq_steps, World.start, Prog.bind, Prog.tryCatch, Prog.pure, hrun]
    · simp [exitStatus, main_eq_steps, World.start, Prog.bind, Prog.tryCatch, Prog.pure, hrun]
    · simp [runTrace, main_eq_steps, World.start, Prog.bind, Prog.tryCatch, Prog.pure, hrun]
  | error e =>
    refine ⟨?_, fun h => by cases h⟩
    simp [finalRemote, main_eq_steps, World.start, Prog.bind, Prog.tryCatch, Prog.pure, hrun,
      consoleError, emit]

theorem fresh_run_has_all :
    ∀ c ∈ plannedCalls, (plannedCalls.foldl Schema.after freshTarget).has c = true := by
  decide!

theorem fresh_run_schema :
    plannedCalls.foldl Schema.after freshTarget =
      { collections :=
          ["users", "students", "class_sessions", "learning_materials", "session_reports"],
        attributes := (plannedCalls.foldl Schema.after freshTarget).attributes,
        indexes := (declaredIndexes.map (fun x => (x.2.1, x.2.2))),
        buckets := ["learning_materials"] } ∧
    (plannedCalls.foldl Schema.after freshTarget).attributes.length = 33 := by
  decide!

/-- Claim C2 (idempotence of the full run): on the remote where a create call
succeeds and adds the object when it is absent and fails with code 409, leaving
the schema unchanged, when it is present, starting from a fresh target that
holds the collections `users`, `students` and `class_sessions`: the first run
of `main` ends with exit status 0; a second run leaves the schema as the first
run left it, ends with exit status 0, issues the same 46 calls, and every one
of them is answered with code 409 (`AlreadyPresent`). -/
theorem main_idempotent (endpoint project : String) :
    exitStatus (schemaEnv endpoint project) freshTarget = .ok 0 ∧
    finalRemote (schemaEnv endpoint project)
        (finalRemote (schemaEnv endpoint project) freshTarget) =
      finalRemote (schemaEnv endpoint project) freshTarget ∧
    exitStatus (schemaEnv endpoint project)
        (finalRemote (schemaEnv endpoint project) freshTarget) = .ok 0 ∧
    callsOf (runTrace (schemaEnv endpoint project)
        (finalRemote (schemaEnv endpoint project) freshTarget)) = plannedCalls ∧
    (∀ c r, Event.call c r ∈ runTrace (schemaEnv endpoint project)
        (finalRemote (schemaEnv endpoint project) freshTarget) → r.alreadyPresent = true) ∧
    (finalRemote (schemaEnv endpoint project) freshTarget).collections =
      ["users", "students", "class_sessions", "learning_materials", "session_reports"] ∧
    (finalRemote (schemaEnv endpoint project) freshTarget).attributes.length = 33 ∧
    (finalRemote (schemaEnv endpoint project) freshTarget).indexes.length = 10 ∧
    (finalRemote (schemaEnv endpoint project) freshTarget).buckets = ["learning_materials"] := by
  have hfirst := schema_run endpoint project mainSteps
    (World.mk freshTarget (headerEvents (schemaEnv endpoint project)))
  have hu1 := main_unfold (schemaEnv endpoint project) freshTarget
  have hs1 : finalRemote (schemaEnv endpoint project) freshTarget =
      plannedCalls.foldl Schema.after freshTarget := by
    rw [hu1.1, hfirst.2]
    rfl
  have hu2 := main_unfold (schemaEnv endpoint project)
    (finalRemote (schemaEnv endpoint project) freshTarget)
  have hpres : ∀ c ∈ stepCalls mainSteps,
      (World.mk (finalRemote (schemaEnv endpoint project) freshTarget)
        (headerEvents (schemaEnv endpoint project))).remote.has c = true := by
    intro c hc
    dsimp only
    rw [hs1]
    exact fresh_run_has_all c hc
  have hsecond := schema_rerun endpoint project mainSteps
    (World.mk (finalRemote (schemaEnv endpoint project) freshTarget)
      (headerEvents (schemaEnv endpoint project))) hpres
  have hok2 := (schema_run endpoint project mainSteps
    (World.mk (finalRemote (schemaEnv endpoint project) freshTarget)
      (headerEvents (schemaEnv endpoint project)))).1
  obtain ⟨hrem, evs, htr, hall⟩ := hsecond
  obtain ⟨hst2, htrace2⟩ := hu2.2 hok2
  have hcalls : ∀ c r, Event.call c r ∈ runTrace (schemaEnv endpoint project)
      (finalRemote (schemaEnv endpoint project) freshTarget) → r.alreadyPresent = true := by
    intro c r hm
    rw [htrace2, htr] at hm
    rcases List.mem_append.1 hm with h1 | h1
    · have := headerEvents_console (schemaEnv endpoint project) _ h1
      simp [Event.isConsole] at this
    · rw [hall c r h1]
      rfl
  refine ⟨(hu1.2 hfirst.1).1, ?_, hst2, ?_, hcalls, ?_, ?_, ?_, ?_⟩
  · rw [hu2.1, hrem]
  · obtain ⟨evs2, r0, hsh, hmem, _, hc2, _, _, _, _⟩ := main_facts (schemaEnv endpoint project)
      (finalRemote (schemaEnv endpoint project) freshTarget)
    have hok : r0 = .ok () := by
      rcases r0 with e | u
      · obtain ⟨c, hc, hf⟩ := shape_error_fatal hsh mainSteps_wf e rfl
        have h1 := hcalls c _ ((hmem c _).2 hc)
        simp [Response.alreadyPresent] at h1
        simp [Fatal, h1] at hf
      · rfl
    obtain ⟨rest, hplan, hrest⟩ := shape_calls hsh
    show _ = stepCalls mainSteps
    rw [hplan, hrest hok, hc2]
    simp
  · rw [hs1, fresh_run_schema.1]
  · rw [hs1]
    exact fresh_run_schema.2
  · rw [hs1, fresh_run_schema.1]
    rfl
  · rw [hs1, fresh_run_schema.1]

end Claims

end AppwriteSetup
